import Mathlib

/-!
The edge-app-sdk message routing and lifecycle layer.

A shallow embedding of the Go package `sdk` (files `model.go`, `logging.go`,
`nats.go`, `client.go`, `commands.go`, `config.go`, `heartbeat.go`).

* Go structs become Lean structures, methods become functions on an explicit
  `Client` state.
* The world outside the package (clock, JSON and YAML codecs, file system, the
  NATS connection) is read through a `Runtime` record of oracles, so every
  theorem holds for every behaviour of that world.
* Every call of `conn.Publish` is recorded in `NATSClient.published` together
  with the verdict of the connection; the local logrus sink is the list
  `Logger.entries`.
* The read/write lock `mu` is not modelled: operations are atomic steps.
-/

namespace EdgeSDK

/-! ## Dynamic values (`interface{}` and `map[string]interface{}`) -/

/-- Go values of type `interface{}` as they occur in payload maps: the JSON kinds,
plus `unsupported` for values `json.Marshal` rejects (channels, functions, ...),
carrying the text of the error the encoder reports. Numbers are integers. -/
inductive Value where
  | null
  | bool (b : Bool)
  | num (n : Int)
  | str (s : String)
  | arr (xs : List Value)
  | obj (fields : List (String × Value))
  | unsupported (err : String)

/-- Go `map[string]interface{}`; the nil map is the empty list. -/
abbrev GoMap := List (String × Value)

/-- Map read `m[k]`: `none` when the key is absent. -/
def mapGet : GoMap → String → Option Value
  | [], _ => none
  | (k', v) :: rest, k => if k' = k then some v else mapGet rest k

/-- Map write `m[k] = v`. -/
def mapSet : GoMap → String → Value → GoMap
  | [], k, v => [(k, v)]
  | (k', v') :: rest, k, v =>
    if k' = k then (k, v) :: rest else (k', v') :: mapSet rest k v

/-- Type assertion `v.(string)`. -/
def Value.asString : Value → Option String
  | .str s => some s
  | _ => none

/-- Type assertion `v.(map[string]interface{})`. -/
def Value.asMap : Value → Option GoMap
  | .obj fields => some fields
  | _ => none

mutual
/-- The error `json.Marshal` reports for a value, `none` when it encodes. -/
def Value.marshalErr : Value → Option String
  | .unsupported e => some e
  | .arr xs => marshalErrList xs
  | .obj fields => marshalErrFields fields
  | _ => none
/-- First encoding error among the elements of an array. -/
def marshalErrList : List Value → Option String
  | [] => none
  | v :: vs =>
    match v.marshalErr with
    | some e => some e
    | none => marshalErrList vs
/-- First encoding error among the values of a map. -/
def marshalErrFields : List (String × Value) → Option String
  | [] => none
  | (_, v) :: rest =>
    match v.marshalErr with
    | some e => some e
    | none => marshalErrFields rest
end

/-! ## model.go -/

/-- Options of `NewClient`. `HeartbeatInterval` is in nanoseconds. -/
structure Options where
  AppKey : String
  AppVersion : String
  NatsURL : String
  HeartbeatInterval : Nat
  LogLevel : String

/-- Inbound command envelope. -/
structure Command where
  Action : String
  Payload : GoMap
  CommandID : String

/-- Result of a command. -/
structure CommandResult where
  CommandID : String := ""
  Success : Bool := false
  Message : String := ""
  Data : GoMap := []
  Timestamp : Int := 0

/-- Heartbeat record. -/
structure HeartbeatData where
  AppKey : String
  Version : String
  Status : String
  Metrics : GoMap
  Timestamp : Int

/-- Forwarded log record. -/
structure LogData where
  Level : String
  Message : String
  Timestamp : Int

/-- Event record. -/
structure EventData where
  Event : String
  Data : GoMap
  Timestamp : Int

/-- Status record. -/
structure StatusData where
  AppKey : String
  Status : String
  Data : GoMap
  Timestamp : Int

/-- Config push envelope. -/
structure ConfigData where
  Config : GoMap
  Version : String
  Timestamp : Int

/-- Subject builder. -/
structure TopicBuilder where
  appKey : String

/-- Constructor of the subject builder. -/
def NewTopicBuilder (appKey : String) : TopicBuilder := { appKey := appKey }

namespace TopicBuilder

/-- Heartbeat subject. -/
def Heartbeat (tb : TopicBuilder) : String := "app." ++ tb.appKey ++ ".heartbeat"
/-- Logs subject. -/
def Logs (tb : TopicBuilder) : String := "app." ++ tb.appKey ++ ".logs"
/-- Events subject. -/
def Events (tb : TopicBuilder) : String := "app." ++ tb.appKey ++ ".events"
/-- Status subject. -/
def Status (tb : TopicBuilder) : String := "app." ++ tb.appKey ++ ".status"
/-- Command subject. -/
def Command (tb : TopicBuilder) : String := "app." ++ tb.appKey ++ ".cmd"
/-- Command result subject. -/
def CommandResult (tb : TopicBuilder) : String := "app." ++ tb.appKey ++ ".cmd.result"
/-- Config push subject. -/
def ConfigSet (tb : TopicBuilder) : String := "app." ++ tb.appKey ++ ".config.set"
/-- Config acknowledgment subject. -/
def ConfigAck (tb : TopicBuilder) : String := "app." ++ tb.appKey ++ ".config.ack"

end TopicBuilder

/-! ## logging.go -/

/-- SDK log level: a string type in Go. -/
abbrev LogLevel := String

/-- Constant `LogLevelTrace`. -/
def LogLevelTrace : LogLevel := "Trace"
/-- Constant `LogLevelDebug`. -/
def LogLevelDebug : LogLevel := "Debug"
/-- Constant `LogLevelInfo`. -/
def LogLevelInfo : LogLevel := "Info"
/-- Constant `LogLevelWarn`. -/
def LogLevelWarn : LogLevel := "Warn"
/-- Constant `LogLevelError`. -/
def LogLevelError : LogLevel := "Error"
/-- Constant `LogLevelFatal`. -/
def LogLevelFatal : LogLevel := "Fatal"
/-- Constant `LogLevelPanic`. -/
def LogLevelPanic : LogLevel := "Panic"

/-- Levels of the logrus library, `PanicLevel = 0` up to `TraceLevel = 6`. -/
inductive LogrusLevel where
  | PanicLevel
  | FatalLevel
  | ErrorLevel
  | WarnLevel
  | InfoLevel
  | DebugLevel
  | TraceLevel
  deriving DecidableEq, Repr

/-- Numeric value of a logrus level. -/
def LogrusLevel.toNat : LogrusLevel → Nat
  | .PanicLevel => 0
  | .FatalLevel => 1
  | .ErrorLevel => 2
  | .WarnLevel => 3
  | .InfoLevel => 4
  | .DebugLevel => 5
  | .TraceLevel => 6

/-- Conversion of a level name to a logrus level, `InfoLevel` by default. -/
def stringToLogrusLevel (levelStr : String) : LogrusLevel :=
  if levelStr = "Trace" then .TraceLevel
  else if levelStr = "Debug" then .DebugLevel
  else if levelStr = "Info" then .InfoLevel
  else if levelStr = "Warn" then .WarnLevel
  else if levelStr = "Error" then .ErrorLevel
  else if levelStr = "Fatal" then .FatalLevel
  else if levelStr = "Panic" then .PanicLevel
  else .InfoLevel

/-- Conversion of a logrus level to an SDK level. -/
def logrusLevelToLogLevel : LogrusLevel → LogLevel
  | .TraceLevel => LogLevelTrace
  | .DebugLevel => LogLevelDebug
  | .InfoLevel => LogLevelInfo
  | .WarnLevel => LogLevelWarn
  | .ErrorLevel => LogLevelError
  | .FatalLevel => LogLevelFatal
  | .PanicLevel => LogLevelPanic

/-- The map literal `levels` built inside `shouldReportLog`. -/
def levels : List (LogLevel × Nat) :=
  [(LogLevelTrace, 0), (LogLevelDebug, 1), (LogLevelInfo, 2), (LogLevelWarn, 3),
   (LogLevelError, 4), (LogLevelFatal, 5), (LogLevelPanic, 6)]

/-- Map read `levels[k]` with the presence flag. -/
def levelsGet : List (LogLevel × Nat) → LogLevel → Option Nat
  | [], _ => none
  | (k', v) :: rest, k => if k' = k then some v else levelsGet rest k

/-- Gate of log forwarding. -/
def shouldReportLog (logLevel : LogLevel) (minLevel : LogLevel) : Bool :=
  match levelsGet levels logLevel, levelsGet levels minLevel with
  | some logLevelValue, some minLevelValue => decide (logLevelValue ≥ minLevelValue)
  | _, _ => true

/-! ## External collaborators -/

/-- The `data interface{}` argument handed to `Publish` and `Respond`. -/
inductive Payload where
  | commandResult (r : CommandResult)
  | heartbeat (h : HeartbeatData)
  | log (l : LogData)
  | event (e : EventData)
  | status (s : StatusData)
  | map (m : GoMap)

/-- The error `json.Marshal` reports for a payload: only the dynamic maps can fail. -/
def Payload.marshalErr : Payload → Option String
  | .commandResult r => marshalErrFields r.Data
  | .heartbeat h => marshalErrFields h.Metrics
  | .log _ => none
  | .event e => marshalErrFields e.Data
  | .status s => marshalErrFields s.Data
  | .map m => marshalErrFields m

/-- Inbound bus message (`nats.Msg`): raw bytes and the reply address. -/
structure Msg where
  Data : String
  Reply : String

/-- What one operation reads from the world outside the package. -/
structure Runtime where
  /-- Value of `time.Now().Unix()`. -/
  now : Int
  /-- Value of `int64(time.Since(c.startTime).Seconds())`. -/
  uptime : Int
  /-- Decoder `json.Unmarshal` into a `Command`. -/
  unmarshalCommand : String → Except String Command
  /-- Decoder `json.Unmarshal` into a `ConfigData`. -/
  unmarshalConfig : String → Except String ConfigData
  /-- The error `conn.Publish` returns for a subject and payload, `none` for nil. -/
  connPublish : String → Payload → Option String
  /-- Value of `conn.IsConnected()`. -/
  isConnected : Bool
  /-- Library function `filepath.Dir`. -/
  filepathDir : String → String
  /-- The error of `os.MkdirAll`. -/
  mkdirAll : String → Option String
  /-- Encoder `yaml.Marshal`. -/
  yamlMarshal : GoMap → Except String String
  /-- The error of `os.WriteFile` for a path and content. -/
  writeFile : String → String → Option String
  /-- The error of `os.Rename` for an old and a new path. -/
  rename : String → String → Option String

/-- One call of `conn.Publish`: subject, payload, and whether the connection
accepted it (returned nil). -/
structure Published where
  subject : String
  data : Payload
  accepted : Bool

/-- The local logrus logger: its level and the entries written so far. -/
structure Logger where
  level : LogrusLevel
  entries : List (LogrusLevel × String)

namespace Logger

/-- Method `SetLevel` of logrus. -/
def SetLevel (l : Logger) (level : LogrusLevel) : Logger := { l with level := level }

/-- Method `Log` of logrus: the entry is written when the level is enabled. -/
def Log (l : Logger) (level : LogrusLevel) (message : String) : Logger :=
  if l.level.toNat ≥ level.toNat then { l with entries := l.entries ++ [(level, message)] }
  else l

/-- Method `Trace` of logrus. -/
def Trace (l : Logger) (message : String) : Logger := l.Log .TraceLevel message
/-- Method `Debug` of logrus. -/
def Debug (l : Logger) (message : String) : Logger := l.Log .DebugLevel message
/-- Method `Info` of logrus. -/
def Info (l : Logger) (message : String) : Logger := l.Log .InfoLevel message
/-- Method `Warn` of logrus. -/
def Warn (l : Logger) (message : String) : Logger := l.Log .WarnLevel message
/-- Method `Error` of logrus. -/
def Error (l : Logger) (message : String) : Logger := l.Log .ErrorLevel message
/-- Method `Errorf` of logrus, applied to the formatted text. -/
def Errorf (l : Logger) (message : String) : Logger := l.Log .ErrorLevel message

end Logger

/-! ## nats.go -/

/-- Wrapper of the NATS connection: the number of `conn.Close()` calls so far and
the record of `conn.Publish` calls, oldest first. -/
structure NATSClient where
  closeCalls : Nat
  published : List Published

namespace NATSClient

/-- Method `Publish`: encode, then hand to the connection. -/
def Publish (nc : NATSClient) (rt : Runtime) (subject : String) (data : Payload) :
    NATSClient × Option String :=
  match data.marshalErr with
  | some err => (nc, some ("failed to marshal data: " ++ err))
  | none =>
    match rt.connPublish subject data with
    | some err => ({ nc with published := nc.published ++ [⟨subject, data, false⟩] }, some err)
    | none => ({ nc with published := nc.published ++ [⟨subject, data, true⟩] }, none)

/-- Method `Respond`: encode, then publish on the reply address. -/
def Respond (nc : NATSClient) (rt : Runtime) (reply : String) (data : Payload) :
    NATSClient × Option String :=
  match data.marshalErr with
  | some err => (nc, some ("failed to marshal data: " ++ err))
  | none =>
    match rt.connPublish reply data with
    | some err => ({ nc with published := nc.published ++ [⟨reply, data, false⟩] }, some err)
    | none => ({ nc with published := nc.published ++ [⟨reply, data, true⟩] }, none)

/-- Method `Close`; the connection is never nil in a constructed client. -/
def Close (nc : NATSClient) : NATSClient := { nc with closeCalls := nc.closeCalls + 1 }

/-- Method `IsConnected`. -/
def IsConnected (_nc : NATSClient) (rt : Runtime) : Bool := rt.isConnected

end NATSClient

/-! ## client.go -/

/-- The channel `heartbeatStop`: the number of `close` statements run on it. A
channel is closed once that number is positive; a second `close` panics in Go. -/
structure StopChan where
  closes : Nat

/-- Callback type `HeartbeatCallback`. -/
abbrev HeartbeatCallback := Unit → GoMap
/-- Callback type `CommandHandler`. -/
abbrev CommandHandler := Command → CommandResult
/-- Callback type `ConfigHandler`: `none` is the nil error. -/
abbrev ConfigHandler := GoMap → Option String

/-- The SDK client. The callbacks are `none` when nil. The ghost field
`configHandlerCalls` lists the arguments of every invocation of the config
handler; `startTime` is read through `Runtime.uptime`. -/
structure Client where
  opts : Options
  nats : NATSClient
  topics : TopicBuilder
  running : Bool
  heartbeatStop : StopChan
  logger : Logger
  minLogLevel : LogLevel
  heartbeatCallback : Option HeartbeatCallback
  commandHandler : Option CommandHandler
  configHandler : Option ConfigHandler
  configHandlerCalls : List GoMap

/-- How a call ends: it returns, or the process exits, or the goroutine panics.
Each case carries the client state reached. -/
inductive Outcome where
  | returned (c : Client)
  | exited (c : Client) (code : Int)
  | panicked (c : Client) (message : String)

/-- The client state an outcome carries. -/
def Outcome.client : Outcome → Client
  | .returned c => c
  | .exited c _ => c
  | .panicked c _ => c

/-- Constructor `NewClient`, given the errors of the connection attempt and of the
two subscriptions (`none` for nil). The two goroutines it starts are driven by
the operations `sendHeartbeat` and `Close`. -/
def NewClient (opts : Options) (connectErr subscribeCommandErr subscribeConfigErr : Option String) :
    Except String Client :=
  let opts := if opts.NatsURL = "" then { opts with NatsURL := "nats://127.0.0.1:4222" } else opts
  let opts := if opts.HeartbeatInterval = 0 then { opts with HeartbeatInterval := 30 * 1000000000 }
    else opts
  let opts := if opts.LogLevel = "" then { opts with LogLevel := "Info" } else opts
  match connectErr with
  | some err => .error ("failed to create NATS client: failed to connect to NATS: " ++ err)
  | none =>
    let client : Client :=
      { opts := opts
        nats := { closeCalls := 0, published := [] }
        topics := NewTopicBuilder opts.AppKey
        running := true
        heartbeatStop := { closes := 0 }
        logger := { level := stringToLogrusLevel opts.LogLevel, entries := [] }
        minLogLevel := opts.LogLevel
        heartbeatCallback := none
        commandHandler := none
        configHandler := none
        configHandlerCalls := [] }
    match subscribeCommandErr with
    | some err => .error ("failed to init commands: failed to subscribe to command topic: " ++ err)
    | none =>
      match subscribeConfigErr with
      | some err => .error ("failed to init config: failed to subscribe to config topic: " ++ err)
      | none => .ok client

namespace Client

/-- Method `SetHeartbeatCallback`. -/
def SetHeartbeatCallback (c : Client) (callback : Option HeartbeatCallback) : Client :=
  { c with heartbeatCallback := callback }

/-- Method `OnCommand`. -/
def OnCommand (c : Client) (handler : Option CommandHandler) : Client :=
  { c with commandHandler := handler }

/-- Method `OnConfig`. -/
def OnConfig (c : Client) (handler : Option ConfigHandler) : Client :=
  { c with configHandler := handler }

/-- Method `SetMinLogLevel`. -/
def SetMinLogLevel (c : Client) (level : LogLevel) : Client :=
  { c with minLogLevel := level }

/-- Method `isRunning`. -/
def isRunning (c : Client) : Bool := c.running

/-- Method `GetUptime`. -/
def GetUptime (_c : Client) (rt : Runtime) : Int := rt.uptime

/-- Method `log`: the forwarder of log records to the bus. -/
def log (c : Client) (rt : Runtime) (level : LogLevel) (message : String) : Client :=
  if !c.isRunning then c
  else
    let minLevel := c.minLogLevel
    if !shouldReportLog level minLevel then c
    else
      let logData : LogData := { Level := level, Message := message, Timestamp := rt.now }
      match c.nats.Publish rt c.topics.Logs (.log logData) with
      | (nc, some err) =>
        { c with nats := nc, logger := c.logger.Errorf ("Failed to publish log to NATS: " ++ err) }
      | (nc, none) => { c with nats := nc }

/-- Method `LogTrace`. -/
def LogTrace (c : Client) (rt : Runtime) (message : String) : Client :=
  ({ c with logger := c.logger.Trace message }).log rt LogLevelTrace message

/-- Method `LogDebug`. -/
def LogDebug (c : Client) (rt : Runtime) (message : String) : Client :=
  ({ c with logger := c.logger.Debug message }).log rt LogLevelDebug message

/-- Method `LogInfo`. -/
def LogInfo (c : Client) (rt : Runtime) (message : String) : Client :=
  ({ c with logger := c.logger.Info message }).log rt LogLevelInfo message

/-- Method `LogWarn`. -/
def LogWarn (c : Client) (rt : Runtime) (message : String) : Client :=
  ({ c with logger := c.logger.Warn message }).log rt LogLevelWarn message

/-- Method `LogError`. -/
def LogError (c : Client) (rt : Runtime) (message : String) : Client :=
  ({ c with logger := c.logger.Error message }).log rt LogLevelError message

/-- Method `LogFatal`: `logger.Fatal` writes the entry and calls `os.Exit(1)`, so
the call of `c.log` after it is never reached. -/
def LogFatal (c : Client) (_rt : Runtime) (message : String) : Outcome :=
  .exited { c with logger := c.logger.Log .FatalLevel message } 1

/-- Method `LogPanic`: `logger.Panic` writes the entry and panics, so the call of
`c.log` after it is never reached. -/
def LogPanic (c : Client) (_rt : Runtime) (message : String) : Outcome :=
  .panicked { c with logger := c.logger.Log .PanicLevel message } message

/-- Method `EmitEvent`. -/
def EmitEvent (c : Client) (rt : Runtime) (event : String) (data : GoMap) : Client :=
  if !c.isRunning then c
  else
    let eventData : EventData := { Event := event, Data := data, Timestamp := rt.now }
    match c.nats.Publish rt c.topics.Events (.event eventData) with
    | (nc, some err) =>
      { c with nats := nc, logger := c.logger.Errorf ("Failed to publish event: " ++ err) }
    | (nc, none) => { c with nats := nc }

/-- Method `ReportStatus`. -/
def ReportStatus (c : Client) (rt : Runtime) (data : GoMap) : Client :=
  if !c.isRunning then c
  else
    let statusData : StatusData :=
      { AppKey := c.opts.AppKey, Status := "running", Data := data, Timestamp := rt.now }
    match c.nats.Publish rt c.topics.Status (.status statusData) with
    | (nc, some err) =>
      { c with nats := nc, logger := c.logger.Errorf ("Failed to publish status: " ++ err) }
    | (nc, none) => { c with nats := nc }

/-- Method `Close`, with the error it returns (always nil). -/
def Close (c : Client) : Client × Option String :=
  if !c.running then (c, none)
  else
    let c := { c with running := false }
    let c := { c with heartbeatStop := { closes := c.heartbeatStop.closes + 1 } }
    let c := { c with nats := c.nats.Close }
    (c, none)

end Client

/-! ## commands.go -/

namespace Client

/-- Method `defaultCommandHandler`. -/
def defaultCommandHandler (c : Client) (rt : Runtime) (cmd : Command) : CommandResult :=
  if cmd.Action = "start" then
    { Success := true, Message := "App is already running" }
  else if cmd.Action = "stop" then
    { Success := true, Message := "Stop command received (managed by systemd)" }
  else if cmd.Action = "restart" then
    { Success := true, Message := "Restart command received (managed by systemd)" }
  else if cmd.Action = "snapshot" then
    { Success := true
      Message := "Snapshot command received"
      Data := [("uptime", .num (c.GetUptime rt)), ("version", .str c.opts.AppVersion),
               ("status", .str "running")] }
  else
    { Success := false, Message := "Unknown command: " ++ cmd.Action }

/-- The first part of `handleCommand` after decoding: dispatch to the registered
handler or to the default one, then set the command id and back-fill the
timestamp. -/
def commandResultFor (c : Client) (rt : Runtime) (cmd : Command) : CommandResult :=
  let handler := c.commandHandler
  let result :=
    match handler with
    | some h => h cmd
    | none => c.defaultCommandHandler rt cmd
  let result := { result with CommandID := cmd.CommandID }
  if result.Timestamp = 0 then { result with Timestamp := rt.now } else result

/-- Method `handleCommand`. -/
def handleCommand (c : Client) (rt : Runtime) (msg : Msg) : Client :=
  match rt.unmarshalCommand msg.Data with
  | .error err => c.LogError rt ("Failed to unmarshal command: " ++ err)
  | .ok cmd =>
    let result := c.commandResultFor rt cmd
    if msg.Reply ≠ "" then
      match c.nats.Respond rt msg.Reply (.commandResult result) with
      | (nc, some err) =>
        ({ c with nats := nc }).LogError rt ("Failed to respond to command: " ++ err)
      | (nc, none) => { c with nats := nc }
    else
      match c.nats.Publish rt c.topics.CommandResult (.commandResult result) with
      | (nc, some err) =>
        ({ c with nats := nc }).LogError rt ("Failed to publish command result: " ++ err)
      | (nc, none) => { c with nats := nc }

end Client

/-! ## config.go -/

namespace Client

/-- Method `saveConfig`: create the directory, encode, write a temporary file,
rename it into place. Returns the error, `none` for nil. -/
def saveConfig (_c : Client) (rt : Runtime) (path : String) (config : GoMap) : Option String :=
  let dir := rt.filepathDir path
  match rt.mkdirAll dir with
  | some err => some ("failed to create config directory: " ++ err)
  | none =>
    match rt.yamlMarshal config with
    | .error err => some ("failed to marshal config: " ++ err)
    | .ok data =>
      let tmpPath := path ++ ".tmp"
      match rt.writeFile tmpPath data with
      | some err => some ("failed to write config file: " ++ err)
      | none =>
        match rt.rename tmpPath path with
        | some err => some ("failed to rename config file: " ++ err)
        | none => none

/-- Method `sendConfigAck`. -/
def sendConfigAck (c : Client) (rt : Runtime) (success : Bool) (message : String) : Client :=
  let ack : GoMap :=
    [("success", .bool success), ("message", .str message), ("timestamp", .num 0)]
  match c.nats.Publish rt c.topics.ConfigAck (.map ack) with
  | (nc, some err) => ({ c with nats := nc }).LogError rt ("Failed to send config ack: " ++ err)
  | (nc, none) => { c with nats := nc }

/-- Method `getConfigPath`. -/
def getConfigPath (c : Client) : String :=
  "/usr/local/edge/apps/" ++ c.opts.AppKey ++ "/config.yaml"

/-- The three statements run when a log level is found in a pushed config. -/
def applyLogLevel (c : Client) (rt : Runtime) (logLevelStr : String) : Client :=
  let c := c.SetMinLogLevel logLevelStr
  let c := { c with logger := c.logger.SetLevel (stringToLogrusLevel logLevelStr) }
  c.LogInfo rt ("Log level updated to: " ++ logLevelStr)

/-- The log level block of `handleConfigUpdate`: the `if` on `sdk` being a map,
with the `else if` on the top-level `log_level`. -/
def updateLogLevel (c : Client) (rt : Runtime) (config : GoMap) : Client :=
  match (mapGet config "sdk").bind Value.asMap with
  | some sdkConfig =>
    match (mapGet sdkConfig "log_level").bind Value.asString with
    | some logLevelStr => c.applyLogLevel rt logLevelStr
    | none => c
  | none =>
    match (mapGet config "log_level").bind Value.asString with
    | some logLevelStr => c.applyLogLevel rt logLevelStr
    | none => c

/-- The call of the registered config handler in `handleConfigUpdate`: the state
with the invocation recorded, and the error the handler returned. -/
def callConfigHandler (c : Client) (config : GoMap) : Client × Option String :=
  match c.configHandler with
  | some handler =>
    ({ c with configHandlerCalls := c.configHandlerCalls ++ [config] }, handler config)
  | none => (c, none)

/-- Method `handleConfigUpdate`. -/
def handleConfigUpdate (c : Client) (rt : Runtime) (msg : Msg) : Client :=
  match rt.unmarshalConfig msg.Data with
  | .error err => c.LogError rt ("Failed to unmarshal config: " ++ err)
  | .ok configData =>
    let configPath := c.getConfigPath
    match c.saveConfig rt configPath configData.Config with
    | some err =>
      let c := c.LogError rt ("Failed to save config: " ++ err)
      c.sendConfigAck rt false ("Failed to save config: " ++ err)
    | none =>
      match c.callConfigHandler configData.Config with
      | (c, some err) =>
        let c := c.LogError rt ("Failed to apply config: " ++ err)
        c.sendConfigAck rt false ("Failed to apply config: " ++ err)
      | (c, none) =>
        let c := c.updateLogLevel rt configData.Config
        let c := c.sendConfigAck rt true "Config updated successfully"
        c.LogInfo rt "Config updated successfully"

end Client

/-! ## heartbeat.go -/

namespace Client

/-- The loop `for k, v := range customData { metrics[k] = v }`. The entries are
taken last to first, so that the first entry of a key in the list, the one
`mapGet` reads, is the one written last. -/
def mergeMetrics (metrics : GoMap) (customData : GoMap) : GoMap :=
  customData.foldr (fun kv acc => mapSet acc kv.1 kv.2) metrics

/-- Method `sendHeartbeat`. -/
def sendHeartbeat (c : Client) (rt : Runtime) : Client :=
  if !c.isRunning || !c.nats.IsConnected rt then c
  else
    let metrics : GoMap := [("uptime", .num (c.GetUptime rt))]
    let callback := c.heartbeatCallback
    let metrics :=
      match callback with
      | some cb => mergeMetrics metrics (cb ())
      | none => metrics
    let heartbeat : HeartbeatData :=
      { AppKey := c.opts.AppKey, Version := c.opts.AppVersion, Status := "running",
        Timestamp := rt.now, Metrics := metrics }
    match c.nats.Publish rt c.topics.Heartbeat (.heartbeat heartbeat) with
    | (nc, some err) =>
      { c with nats := nc, logger := c.logger.Errorf ("Failed to publish heartbeat: " ++ err) }
    | (nc, none) => { c with nats := nc }

end Client

/-! ## The client as a transition system -/

/-- The operations that act on a constructed client: its exported methods, the
two subscription callbacks and the heartbeat tick. -/
inductive Op where
  | SetHeartbeatCallback (callback : Option HeartbeatCallback)
  | OnCommand (handler : Option CommandHandler)
  | OnConfig (handler : Option ConfigHandler)
  | GetLogger
  | SetMinLogLevel (level : LogLevel)
  | LogTrace (message : String)
  | LogDebug (message : String)
  | LogInfo (message : String)
  | LogWarn (message : String)
  | LogError (message : String)
  | LogFatal (message : String)
  | LogPanic (message : String)
  | EmitEvent (event : String) (data : GoMap)
  | ReportStatus (data : GoMap)
  | Close
  | GetUptime
  | LoadConfig
  | handleCommand (msg : Msg)
  | handleConfigUpdate (msg : Msg)
  | sendHeartbeat

/-- The client state after one operation. -/
def step (rt : Runtime) (c : Client) : Op → Client
  | .SetHeartbeatCallback callback => c.SetHeartbeatCallback callback
  | .OnCommand handler => c.OnCommand handler
  | .OnConfig handler => c.OnConfig handler
  | .GetLogger => c
  | .SetMinLogLevel level => c.SetMinLogLevel level
  | .LogTrace message => c.LogTrace rt message
  | .LogDebug message => c.LogDebug rt message
  | .LogInfo message => c.LogInfo rt message
  | .LogWarn message => c.LogWarn rt message
  | .LogError message => c.LogError rt message
  | .LogFatal message => (c.LogFatal rt message).client
  | .LogPanic message => (c.LogPanic rt message).client
  | .EmitEvent event data => c.EmitEvent rt event data
  | .ReportStatus data => c.ReportStatus rt data
  | .Close => c.Close.1
  | .GetUptime => c
  | .LoadConfig => c
  | .handleCommand msg => c.handleCommand rt msg
  | .handleConfigUpdate msg => c.handleConfigUpdate rt msg
  | .sendHeartbeat => c.sendHeartbeat rt

/-- The client state after a sequence of operations, each with its own reading of
the outside world. -/
def run (c : Client) : List (Runtime × Op) → Client
  | [] => c
  | (rt, op) :: rest => run (step rt c op) rest

/-! ## Definitions used to state the properties -/

/-- The ordinal of a severity name as the specification gives it:
Trace = 0 < Debug < Info < Warn < Error < Fatal < Panic = 6; `none` for any
other string. -/
def levelOrdinal (name : String) : Option Nat :=
  if name = "Trace" then some 0
  else if name = "Debug" then some 1
  else if name = "Info" then some 2
  else if name = "Warn" then some 3
  else if name = "Error" then some 4
  else if name = "Fatal" then some 5
  else if name = "Panic" then some 6
  else none

/-- The subject a command result goes to: the reply address when the message
has one, the command result subject otherwise. -/
def resultSubject (c : Client) (msg : Msg) : String :=
  if msg.Reply ≠ "" then msg.Reply else c.topics.CommandResult

/-- The calls of `conn.Publish` on a given subject. -/
def onSubject (subject : String) (ps : List Published) : List Published :=
  ps.filter (fun p => decide (p.subject = subject))

/-- The `success` entry of an acknowledgment map. -/
def ackSuccess (p : Published) : Option Value :=
  match p.data with
  | .map m => mapGet m "success"
  | _ => none

/-- The relation between a client and a later state that differs from it only by
log traffic: entries of the local logger, and log records appended to the
publish record on the logs subject. -/
def LogsOnly (c c' : Client) : Prop :=
  c' = { c with nats := c'.nats, logger := c'.logger } ∧
  c'.nats.closeCalls = c.nats.closeCalls ∧
  ∃ new : List Published,
    c'.nats.published = c.nats.published ++ new ∧
    ∀ p ∈ new, p.subject = c.topics.Logs ∧ ∃ d, p.data = Payload.log d

/-- The client after one `conn.Publish` call has been recorded. -/
def withPublished (c : Client) (p : Published) : Client :=
  { c with nats := { c.nats with published := c.nats.published ++ [p] } }

/-- The result as the handler returns it, before the router touches it. -/
def handlerResult (c : Client) (rt : Runtime) (cmd : Command) : CommandResult :=
  match c.commandHandler with
  | some h => h cmd
  | none => c.defaultCommandHandler rt cmd

/-- The acknowledgment map `sendConfigAck` builds. -/
def ackPayload (success : Bool) (message : String) : Payload :=
  .map [("success", .bool success), ("message", .str message), ("timestamp", .num 0)]

/-- A publish call that is a log record on the logs subject of `tb`. -/
def IsLogOn (tb : TopicBuilder) (p : Published) : Prop :=
  p.subject = tb.Logs ∧ ∃ d, p.data = Payload.log d

/-- The lifecycle fields of a client: identity, subjects, the running flag, the
stop signal and the number of times the transport was closed. -/
def SameCore (c c' : Client) : Prop :=
  c'.opts = c.opts ∧ c'.topics = c.topics ∧ c'.running = c.running ∧
  c'.heartbeatStop = c.heartbeatStop ∧ c'.nats.closeCalls = c.nats.closeCalls

/-! ## Concrete inputs -/

/-- Options of the sample application, with the defaults left to `NewClient`. -/
def exampleOptions : Options :=
  { AppKey := "camera", AppVersion := "1.0.0", NatsURL := "", HeartbeatInterval := 0,
    LogLevel := "" }

/-- The client `NewClient` builds from `exampleOptions`. -/
def exampleClient : Client :=
  { opts := { AppKey := "camera", AppVersion := "1.0.0", NatsURL := "nats://127.0.0.1:4222",
              HeartbeatInterval := 30000000000, LogLevel := "Info" }
    nats := { closeCalls := 0, published := [] }
    topics := { appKey := "camera" }
    running := true
    heartbeatStop := { closes := 0 }
    logger := { level := .InfoLevel, entries := [] }
    minLogLevel := "Info"
    heartbeatCallback := none
    commandHandler := none
    configHandler := none
    configHandlerCalls := [] }

/-- A command with an action the default handler does not know. -/
def exampleCommand : Command :=
  { Action := "reboot", Payload := [], CommandID := "id-7" }

/-- A config push carrying the nested log level `sdk.log_level = "Debug"`. -/
def nestedConfig : ConfigData :=
  { Config := [("sdk", .obj [("log_level", .str "Debug")])], Version := "", Timestamp := 0 }

/-- A config push with an `sdk` object that has no log level, and the top-level
`log_level = "Debug"`. -/
def mixedConfig : ConfigData :=
  { Config := [("sdk", .obj [("mode", .str "fast")]), ("log_level", .str "Debug")],
    Version := "", Timestamp := 0 }

/-- A config push in the old format: only the top-level `log_level = "Warn"`. -/
def legacyConfig : ConfigData :=
  { Config := [("log_level", .str "Warn")], Version := "", Timestamp := 0 }

/-- A world where everything succeeds. The decoders know four message bodies. -/
def exampleRuntime : Runtime :=
  { now := 1700000000
    uptime := 42
    unmarshalCommand := fun data =>
      if data = "reboot command" then .ok exampleCommand
      else .error "unexpected end of JSON input"
    unmarshalConfig := fun data =>
      if data = "nested config" then .ok nestedConfig
      else if data = "mixed config" then .ok mixedConfig
      else if data = "legacy config" then .ok legacyConfig
      else .error "unexpected end of JSON input"
    connPublish := fun _ _ => none
    isConnected := true
    filepathDir := fun _ => "/usr/local/edge/apps/camera"
    mkdirAll := fun _ => none
    yamlMarshal := fun _ => .ok "yaml"
    writeFile := fun _ _ => none
    rename := fun _ _ => none }

/-- The same world with a full disk: writing the temporary file fails. -/
def fullDiskRuntime : Runtime :=
  { exampleRuntime with writeFile := fun _ _ => some "no space left on device" }

/-- A command handler that answers with a command id and a timestamp of its own. -/
def strayHandler : CommandHandler := fun _ =>
  { CommandID := "other", Success := true, Message := "done", Data := [], Timestamp := 5 }

/-- A config handler that rejects every configuration. -/
def rejectingHandler : ConfigHandler := fun _ => some "bad value"

/-- The sample client with `rejectingHandler` registered through `OnConfig`. -/
def rejectingClient : Client := exampleClient.OnConfig (some rejectingHandler)

/-- A heartbeat callback that reports one metric of its own. -/
def customCallback : HeartbeatCallback := fun _ => [("custom", .num 1)]

/-- A heartbeat callback that reports its own value under the key `uptime`. -/
def overridingCallback : HeartbeatCallback := fun _ => [("uptime", .str "n/a"), ("custom", .num 1)]

/-- The call that took `c` to `c'` wrote the entry `(level, message)` to the local
logger, right after the entries `c` already had. -/
def RecordedLocally (c c' : Client) (level : LogrusLevel) (message : String) : Prop :=
  ∃ rest, c'.logger.entries = c.logger.entries ++ (level, message) :: rest

/-- The call that took `c` to `c'` made exactly one `conn.Publish` call: the log
record with the level name `name`, the message and the current time, on the logs
subject. -/
def ForwardedOnce (c c' : Client) (rt : Runtime) (name : LogLevel) (message : String) : Prop :=
  ∃ accepted,
    c'.nats.published =
      c.nats.published ++
        [⟨c.topics.Logs, .log { Level := name, Message := message, Timestamp := rt.now },
          accepted⟩]

/-- The sample client after `SetMinLogLevel "Trace"`: it forwards every severity,
while its local logger still has the level `Info`. -/
def verboseClient : Client := exampleClient.SetMinLogLevel "Trace"

/-! ## Lemmas on the log forwarder -/

/-- The sample client is the one the constructor returns. -/
theorem newClient_example : NewClient exampleOptions none none none = .ok exampleClient := rfl

/-- The forwarder either leaves the client as it is, or makes one `conn.Publish`
call with a log record on the logs subject and, when the connection refuses it,
writes one local entry. -/
theorem log_cases (c : Client) (rt : Runtime) (level : LogLevel) (message : String) :
    (c.log rt level message = c ∧ (c.running = false ∨ shouldReportLog level c.minLogLevel = false)) ∨
    (c.running = true ∧ shouldReportLog level c.minLogLevel = true ∧
      ∃ accepted lg,
        c.log rt level message =
          { c with
            nats := { c.nats with published := c.nats.published ++
              [⟨c.topics.Logs, .log { Level := level, Message := message, Timestamp := rt.now },
                accepted⟩] }
            logger := lg }) := by
  unfold Client.log NATSClient.Publish Client.isRunning
  simp only [Payload.marshalErr]
  cases hr : c.running
  · left; simp
  · cases hs : shouldReportLog level c.minLogLevel
    · left; simp
    · right
      refine ⟨rfl, rfl, ?_⟩
      cases hp : rt.connPublish c.topics.Logs
          (.log { Level := level, Message := message, Timestamp := rt.now }) with
      | none => exact ⟨true, c.logger, by simp [hp]⟩
      | some err =>
        exact ⟨false, c.logger.Errorf ("Failed to publish log to NATS: " ++ err), by simp [hp]⟩

theorem log_eq (c : Client) (rt : Runtime) (level : LogLevel) (message : String) :
    c.log rt level message =
      { c with nats := (c.log rt level message).nats, logger := (c.log rt level message).logger } := by
  rcases log_cases c rt level message with ⟨h, _⟩ | ⟨_, _, accepted, lg, h⟩ <;> rw [h]

theorem log_closeCalls (c : Client) (rt : Runtime) (level : LogLevel) (message : String) :
    (c.log rt level message).nats.closeCalls = c.nats.closeCalls := by
  rcases log_cases c rt level message with ⟨h, _⟩ | ⟨_, _, accepted, lg, h⟩ <;> rw [h]

/-- What one call of `log` adds to the record of publish calls: nothing, or one
log record on the logs subject. -/
theorem log_published (c : Client) (rt : Runtime) (level : LogLevel) (message : String) :
    ∃ new : List Published,
      (c.log rt level message).nats.published = c.nats.published ++ new ∧
      ∀ p ∈ new, p.subject = c.topics.Logs ∧ ∃ d, p.data = Payload.log d := by
  rcases log_cases c rt level message with ⟨h, _⟩ | ⟨_, _, accepted, lg, h⟩
  · exact ⟨[], by simp [h], by simp⟩
  · exact ⟨_, by rw [h], by simp⟩

theorem LogsOnly.refl (c : Client) : LogsOnly c c :=
  ⟨rfl, rfl, [], by simp, by simp⟩

theorem LogsOnly.topics {c c' : Client} (h : LogsOnly c c') : c'.topics = c.topics := by
  rw [h.1]

theorem LogsOnly.trans {a b c : Client} (hab : LogsOnly a b) (hbc : LogsOnly b c) :
    LogsOnly a c := by
  obtain ⟨e1, k1, n1, p1, q1⟩ := hab
  obtain ⟨e2, k2, n2, p2, q2⟩ := hbc
  have ht : b.topics = a.topics := by rw [e1]
  refine ⟨?_, by rw [k2, k1], n1 ++ n2, by rw [p2, p1, List.append_assoc], ?_⟩
  · rw [e2, e1]
  · intro p hp
    rcases List.mem_append.mp hp with hp | hp
    · exact q1 p hp
    · rw [← ht]; exact q2 p hp

theorem LogsOnly.logger (c : Client) (lg : Logger) : LogsOnly c { c with logger := lg } :=
  ⟨rfl, rfl, [], by simp, by simp⟩

theorem LogsOnly.log (c : Client) (rt : Runtime) (level : LogLevel) (message : String) :
    LogsOnly c (c.log rt level message) :=
  ⟨log_eq c rt level message, log_closeCalls c rt level message,
    log_published c rt level message⟩

theorem LogsOnly.LogError (c : Client) (rt : Runtime) (message : String) :
    LogsOnly c (c.LogError rt message) :=
  (LogsOnly.logger c _).trans (LogsOnly.log _ rt _ message)

theorem LogsOnly.LogInfo (c : Client) (rt : Runtime) (message : String) :
    LogsOnly c (c.LogInfo rt message) :=
  (LogsOnly.logger c _).trans (LogsOnly.log _ rt _ message)

theorem LogsOnly.LogTrace (c : Client) (rt : Runtime) (message : String) :
    LogsOnly c (c.LogTrace rt message) :=
  (LogsOnly.logger c _).trans (LogsOnly.log _ rt _ message)

theorem LogsOnly.LogDebug (c : Client) (rt : Runtime) (message : String) :
    LogsOnly c (c.LogDebug rt message) :=
  (LogsOnly.logger c _).trans (LogsOnly.log _ rt _ message)

theorem LogsOnly.LogWarn (c : Client) (rt : Runtime) (message : String) :
    LogsOnly c (c.LogWarn rt message) :=
  (LogsOnly.logger c _).trans (LogsOnly.log _ rt _ message)

/-- Log traffic leaves every field but `nats` and `logger` as it was. -/
theorem LogsOnly.fields {c c' : Client} (h : LogsOnly c c') :
    c'.opts = c.opts ∧ c'.topics = c.topics ∧ c'.running = c.running ∧
    c'.heartbeatStop = c.heartbeatStop ∧ c'.minLogLevel = c.minLogLevel ∧
    c'.heartbeatCallback = c.heartbeatCallback ∧ c'.commandHandler = c.commandHandler ∧
    c'.configHandler = c.configHandler ∧ c'.configHandlerCalls = c.configHandlerCalls ∧
    c'.nats.closeCalls = c.nats.closeCalls := by
  refine ⟨?_, ?_, ?_, ?_, ?_, ?_, ?_, ?_, ?_, h.2.1⟩ <;> rw [h.1]

/-! ## Lemmas on the command router -/

/-- After a decoded command, the router has made at most one `conn.Publish` call
with the computed result, on the result subject, followed by log traffic only;
it makes that call exactly when the result encodes. -/
theorem handleCommand_decoded (c : Client) (rt : Runtime) (msg : Msg) (cmd : Command)
    (h : rt.unmarshalCommand msg.Data = .ok cmd) :
    (marshalErrFields (c.commandResultFor rt cmd).Data ≠ none ∧
      LogsOnly c (c.handleCommand rt msg)) ∨
    (marshalErrFields (c.commandResultFor rt cmd).Data = none ∧
      ∃ accepted,
        LogsOnly
          (withPublished c
            ⟨resultSubject c msg, .commandResult (c.commandResultFor rt cmd), accepted⟩)
          (c.handleCommand rt msg)) := by
  unfold Client.handleCommand
  simp only [h]
  cases hm : marshalErrFields (c.commandResultFor rt cmd).Data with
  | some err =>
    left
    refine ⟨by simp, ?_⟩
    by_cases hr : msg.Reply = ""
    · simp only [hr, ne_eq, not_true_eq_false, if_false, NATSClient.Publish, Payload.marshalErr, hm]
      exact LogsOnly.LogError _ rt _
    · simp only [hr, ne_eq, not_false_eq_true, if_true, NATSClient.Respond, Payload.marshalErr, hm]
      exact LogsOnly.LogError _ rt _
  | none =>
    right
    refine ⟨rfl, ?_⟩
    by_cases hr : msg.Reply = ""
    · simp only [hr, ne_eq, not_true_eq_false, if_false, NATSClient.Publish, Payload.marshalErr, hm,
        resultSubject]
      cases hp : rt.connPublish c.topics.CommandResult
          (.commandResult (c.commandResultFor rt cmd)) with
      | none => exact ⟨true, LogsOnly.refl _⟩
      | some err => exact ⟨false, LogsOnly.LogError _ rt _⟩
    · simp only [hr, ne_eq, not_false_eq_true, if_true, NATSClient.Respond, Payload.marshalErr, hm,
        resultSubject]
      cases hp : rt.connPublish msg.Reply (.commandResult (c.commandResultFor rt cmd)) with
      | none => exact ⟨true, LogsOnly.refl _⟩
      | some err => exact ⟨false, LogsOnly.LogError _ rt _⟩

theorem commandResultFor_fields (c : Client) (rt : Runtime) (cmd : Command) :
    (c.commandResultFor rt cmd).CommandID = cmd.CommandID ∧
    (c.commandResultFor rt cmd).Success = (handlerResult c rt cmd).Success ∧
    (c.commandResultFor rt cmd).Message = (handlerResult c rt cmd).Message ∧
    (c.commandResultFor rt cmd).Data = (handlerResult c rt cmd).Data ∧
    (c.commandResultFor rt cmd).Timestamp =
      if (handlerResult c rt cmd).Timestamp = 0 then rt.now
      else (handlerResult c rt cmd).Timestamp := by
  unfold Client.commandResultFor handlerResult
  by_cases ht : (match c.commandHandler with
      | some h => h cmd
      | none => c.defaultCommandHandler rt cmd).Timestamp = 0 <;> simp [ht]

/-- The publish record after a decoded command: the calls added carry no command
result but the computed one, on the result subject; when the result encodes,
the first call added carries it and the rest are log records. -/
theorem handleCommand_new (c : Client) (rt : Runtime) (msg : Msg) (cmd : Command)
    (h : rt.unmarshalCommand msg.Data = .ok cmd) :
    ∃ new : List Published,
      (c.handleCommand rt msg).nats.published = c.nats.published ++ new ∧
      (∀ p ∈ new, ∀ r, p.data = Payload.commandResult r →
        r = c.commandResultFor rt cmd ∧ p.subject = resultSubject c msg) ∧
      (marshalErrFields (c.commandResultFor rt cmd).Data = none →
        ∃ accepted rest,
          new = ⟨resultSubject c msg, .commandResult (c.commandResultFor rt cmd), accepted⟩ :: rest ∧
          ∀ p ∈ rest, ∃ d, p.data = Payload.log d) := by
  rcases handleCommand_decoded c rt msg cmd h with ⟨hm, _, _, new, hp, hq⟩ | ⟨hm, acc, _, _, new, hp, hq⟩
  · refine ⟨new, hp, ?_, fun h0 => absurd h0 hm⟩
    intro p hpn r hr
    obtain ⟨_, d, hd⟩ := hq p hpn
    rw [hd] at hr
    cases hr
  · refine ⟨_ :: new, ?_, ?_, fun _ => ⟨acc, new, rfl, fun p hpn => (hq p hpn).2⟩⟩
    · rw [hp]; simp [withPublished]
    · intro p hpn r hr
      rcases List.mem_cons.mp hpn with rfl | hpn
      · simp only [Payload.commandResult.injEq] at hr
        exact ⟨hr.symm, rfl⟩
      · obtain ⟨_, d, hd⟩ := hq p hpn
        rw [hd] at hr
        cases hr

/-! ## Command results -/

/-- C1: for every decoded command `cmd` and every handler (a registered one or,
with `none`, the built-in default), every command result that `handleCommand`
hands to the connection carries `cmd.CommandID`, whatever id the handler wrote,
and goes to the reply address or the command result subject; such a result is
handed over whenever the handler result encodes as JSON. -/
theorem handleCommand_result_command_id (c : Client) (rt : Runtime) (msg : Msg) (cmd : Command)
    (handler : Option CommandHandler) (h : rt.unmarshalCommand msg.Data = .ok cmd) :
    ∃ new : List Published,
      ((c.OnCommand handler).handleCommand rt msg).nats.published = c.nats.published ++ new ∧
      (∀ p ∈ new, ∀ r, p.data = Payload.commandResult r →
        r.CommandID = cmd.CommandID ∧ p.subject = resultSubject c msg) ∧
      (marshalErrFields (handlerResult (c.OnCommand handler) rt cmd).Data = none →
        ∃ p ∈ new, ∃ r, p.data = Payload.commandResult r ∧ r.CommandID = cmd.CommandID) := by
  obtain ⟨new, hp, hall, hex⟩ := handleCommand_new (c.OnCommand handler) rt msg cmd h
  obtain ⟨hid, _, _, hdata, _⟩ := commandResultFor_fields (c.OnCommand handler) rt cmd
  refine ⟨new, hp, ?_, ?_⟩
  · intro p hpn r hr
    obtain ⟨rfl, hs⟩ := hall p hpn r hr
    exact ⟨hid, hs⟩
  · intro hm
    obtain ⟨acc, rest, rfl, _⟩ := hex (by rw [hdata]; exact hm)
    exact ⟨_, List.mem_cons_self _ _, _, rfl, hid⟩

/-- Witness of C1: the handler `strayHandler` answers with the id `other`; the
result published for the command `id-7` carries `id-7`. -/
theorem handleCommand_result_command_id_witness :
    exampleRuntime.unmarshalCommand (Msg.mk "reboot command" "").Data = .ok exampleCommand ∧
    (strayHandler exampleCommand).CommandID = "other" ∧
    ∃ new : List Published,
      ((exampleClient.OnCommand (some strayHandler)).handleCommand exampleRuntime
          ⟨"reboot command", ""⟩).nats.published = exampleClient.nats.published ++ new ∧
      (∀ p ∈ new, ∀ r, p.data = Payload.commandResult r →
        r.CommandID = exampleCommand.CommandID ∧
          p.subject = resultSubject exampleClient ⟨"reboot command", ""⟩) ∧
      (marshalErrFields
          (handlerResult (exampleClient.OnCommand (some strayHandler)) exampleRuntime
            exampleCommand).Data = none →
        ∃ p ∈ new, ∃ r, p.data = Payload.commandResult r ∧ r.CommandID = exampleCommand.CommandID) :=
  ⟨rfl, rfl,
    handleCommand_result_command_id exampleClient exampleRuntime ⟨"reboot command", ""⟩
      exampleCommand (some strayHandler) rfl⟩

/-- C6: with no registered command handler, the result handed to the connection
is the one of the default handler; its `Success` is true exactly for the actions
start, stop, restart and snapshot, and for every other action it is false with
the message `Unknown command: ` followed by the action. -/
theorem default_handler_result (c : Client) (rt : Runtime) (msg : Msg) (cmd : Command)
    (h : rt.unmarshalCommand msg.Data = .ok cmd) :
    ∃ r accepted rest,
      ((c.OnCommand none).handleCommand rt msg).nats.published =
        c.nats.published ++ ⟨resultSubject c msg, .commandResult r, accepted⟩ :: rest ∧
      (∀ p ∈ rest, ∃ d, p.data = Payload.log d) ∧
      r.Success = (c.defaultCommandHandler rt cmd).Success ∧
      r.Message = (c.defaultCommandHandler rt cmd).Message ∧
      (r.Success = true ↔ cmd.Action ∈ ["start", "stop", "restart", "snapshot"]) ∧
      (cmd.Action ∉ ["start", "stop", "restart", "snapshot"] →
        r.Success = false ∧ r.Message = "Unknown command: " ++ cmd.Action) := by
  obtain ⟨new, hp, _, hex⟩ := handleCommand_new (c.OnCommand none) rt msg cmd h
  obtain ⟨_, hs, hm, hdata, _⟩ := commandResultFor_fields (c.OnCommand none) rt cmd
  have hres : handlerResult (c.OnCommand none) rt cmd = c.defaultCommandHandler rt cmd := rfl
  rw [hres] at hs hm hdata
  have henc : marshalErrFields ((c.OnCommand none).commandResultFor rt cmd).Data = none := by
    rw [hdata]
    unfold Client.defaultCommandHandler
    split_ifs <;> simp [marshalErrFields, Value.marshalErr]
  obtain ⟨acc, rest, rfl, hrest⟩ := hex henc
  refine ⟨_, acc, rest, hp, hrest, hs, hm, ?_, ?_⟩
  · rw [hs]
    unfold Client.defaultCommandHandler
    split_ifs <;> simp [*]
  · intro hne
    rw [hs, hm]
    simp only [List.mem_cons, List.mem_singleton, List.not_mem_nil, or_false, not_or] at hne
    unfold Client.defaultCommandHandler
    simp [hne.1, hne.2.1, hne.2.2.1, hne.2.2.2]

/-- Witness of C6: the action `reboot` with no handler registered. -/
theorem default_handler_result_witness :
    exampleRuntime.unmarshalCommand (Msg.mk "reboot command" "").Data = .ok exampleCommand ∧
    ∃ r accepted rest,
      ((exampleClient.OnCommand none).handleCommand exampleRuntime
          ⟨"reboot command", ""⟩).nats.published =
        exampleClient.nats.published ++
          ⟨resultSubject exampleClient ⟨"reboot command", ""⟩, .commandResult r, accepted⟩ :: rest ∧
      (∀ p ∈ rest, ∃ d, p.data = Payload.log d) ∧
      r.Success = (exampleClient.defaultCommandHandler exampleRuntime exampleCommand).Success ∧
      r.Message = (exampleClient.defaultCommandHandler exampleRuntime exampleCommand).Message ∧
      (r.Success = true ↔ exampleCommand.Action ∈ ["start", "stop", "restart", "snapshot"]) ∧
      (exampleCommand.Action ∉ ["start", "stop", "restart", "snapshot"] →
        r.Success = false ∧ r.Message = "Unknown command: " ++ exampleCommand.Action) :=
  ⟨rfl,
    default_handler_result exampleClient exampleRuntime ⟨"reboot command", ""⟩ exampleCommand rfl⟩

/-- C7: for every decoded command and every handler, with `r` the result the
handler returns: every command result handed to the connection carries
`r.Timestamp` when it is not zero and the current epoch seconds when it is zero,
and carries `r.Success`, `r.Message` and `r.Data` unchanged; such a result is
handed over whenever `r` encodes as JSON. -/
theorem handleCommand_timestamp (c : Client) (rt : Runtime) (msg : Msg) (cmd : Command)
    (handler : Option CommandHandler) (h : rt.unmarshalCommand msg.Data = .ok cmd) :
    ∃ new : List Published,
      ((c.OnCommand handler).handleCommand rt msg).nats.published = c.nats.published ++ new ∧
      (∀ p ∈ new, ∀ r', p.data = Payload.commandResult r' →
        ((handlerResult (c.OnCommand handler) rt cmd).Timestamp ≠ 0 →
          r'.Timestamp = (handlerResult (c.OnCommand handler) rt cmd).Timestamp) ∧
        ((handlerResult (c.OnCommand handler) rt cmd).Timestamp = 0 → r'.Timestamp = rt.now) ∧
        r'.Success = (handlerResult (c.OnCommand handler) rt cmd).Success ∧
        r'.Message = (handlerResult (c.OnCommand handler) rt cmd).Message ∧
        r'.Data = (handlerResult (c.OnCommand handler) rt cmd).Data) ∧
      (marshalErrFields (handlerResult (c.OnCommand handler) rt cmd).Data = none →
        ∃ p ∈ new, ∃ r', p.data = Payload.commandResult r') := by
  obtain ⟨new, hp, hall, hex⟩ := handleCommand_new (c.OnCommand handler) rt msg cmd h
  obtain ⟨_, hs, hm, hdata, hts⟩ := commandResultFor_fields (c.OnCommand handler) rt cmd
  refine ⟨new, hp, ?_, ?_⟩
  · intro p hpn r hr
    obtain ⟨rfl, _⟩ := hall p hpn r hr
    refine ⟨fun hne => ?_, fun hz => ?_, hs, hm, hdata⟩
    · rw [hts, if_neg hne]
    · rw [hts, if_pos hz]
  · intro hm
    obtain ⟨acc, rest, rfl, _⟩ := hex (by rw [hdata]; exact hm)
    exact ⟨_, List.mem_cons_self _ _, _, rfl⟩

/-- Witness of C7: `strayHandler` sets the timestamp 5, which is kept. -/
theorem handleCommand_timestamp_witness :
    exampleRuntime.unmarshalCommand (Msg.mk "reboot command" "inbox.1").Data = .ok exampleCommand ∧
    (handlerResult (exampleClient.OnCommand (some strayHandler)) exampleRuntime
      exampleCommand).Timestamp = 5 ∧
    ∃ new : List Published,
      ((exampleClient.OnCommand (some strayHandler)).handleCommand exampleRuntime
          ⟨"reboot command", "inbox.1"⟩).nats.published = exampleClient.nats.published ++ new ∧
      (∀ p ∈ new, ∀ r', p.data = Payload.commandResult r' →
        ((handlerResult (exampleClient.OnCommand (some strayHandler)) exampleRuntime
            exampleCommand).Timestamp ≠ 0 →
          r'.Timestamp = (handlerResult (exampleClient.OnCommand (some strayHandler))
            exampleRuntime exampleCommand).Timestamp) ∧
        ((handlerResult (exampleClient.OnCommand (some strayHandler)) exampleRuntime
            exampleCommand).Timestamp = 0 → r'.Timestamp = exampleRuntime.now) ∧
        r'.Success = (handlerResult (exampleClient.OnCommand (some strayHandler)) exampleRuntime
          exampleCommand).Success ∧
        r'.Message = (handlerResult (exampleClient.OnCommand (some strayHandler)) exampleRuntime
          exampleCommand).Message ∧
        r'.Data = (handlerResult (exampleClient.OnCommand (some strayHandler)) exampleRuntime
          exampleCommand).Data) ∧
      (marshalErrFields (handlerResult (exampleClient.OnCommand (some strayHandler))
          exampleRuntime exampleCommand).Data = none →
        ∃ p ∈ new, ∃ r', p.data = Payload.commandResult r') :=
  ⟨rfl, rfl,
    handleCommand_timestamp exampleClient exampleRuntime ⟨"reboot command", "inbox.1"⟩
      exampleCommand (some strayHandler) rfl⟩

/-! ## Lemmas on the config synchronizer -/

theorem SameCore.core_refl (c : Client) : SameCore c c := ⟨rfl, rfl, rfl, rfl, rfl⟩

theorem SameCore.core_trans {a b c : Client} (hab : SameCore a b) (hbc : SameCore b c) :
    SameCore a c := by
  obtain ⟨a1, a2, a3, a4, a5⟩ := hab
  obtain ⟨b1, b2, b3, b4, b5⟩ := hbc
  exact ⟨b1.trans a1, b2.trans a2, b3.trans a3, b4.trans a4, b5.trans a5⟩

theorem LogsOnly.sameCore {c c' : Client} (h : LogsOnly c c') : SameCore c c' := by
  obtain ⟨h1, h2, h3, h4, _, _, _, _, _, h5⟩ := h.fields
  exact ⟨h1, h2, h3, h4, h5⟩

theorem withPublished_sameCore (c : Client) (p : Published) : SameCore c (withPublished c p) :=
  ⟨rfl, rfl, rfl, rfl, rfl⟩

/-- One call of `sendConfigAck` hands one acknowledgment map to the connection
and then produces log traffic only. -/
theorem sendConfigAck_spec (c : Client) (rt : Runtime) (success : Bool) (message : String) :
    LogsOnly
      (withPublished c ⟨c.topics.ConfigAck, ackPayload success message,
        (rt.connPublish c.topics.ConfigAck (ackPayload success message)).isNone⟩)
      (c.sendConfigAck rt success message) := by
  unfold Client.sendConfigAck NATSClient.Publish
  simp only [Payload.marshalErr, marshalErrFields, Value.marshalErr, ackPayload]
  cases hp : rt.connPublish c.topics.ConfigAck
      (.map [("success", .bool success), ("message", .str message), ("timestamp", .num 0)]) with
  | none => exact LogsOnly.refl _
  | some err => exact LogsOnly.LogError _ rt _

/-- The log level block changes the minimum level to the string found, if any,
and otherwise produces log traffic only. -/
theorem updateLogLevel_spec (c : Client) (rt : Runtime) (config : GoMap) :
    (c.updateLogLevel rt config).minLogLevel =
      (match (mapGet config "sdk").bind Value.asMap with
        | some sdkConfig =>
          (match (mapGet sdkConfig "log_level").bind Value.asString with
            | some s => s
            | none => c.minLogLevel)
        | none =>
          (match (mapGet config "log_level").bind Value.asString with
            | some s => s
            | none => c.minLogLevel)) ∧
    LogsOnly { c with minLogLevel := (c.updateLogLevel rt config).minLogLevel }
      (c.updateLogLevel rt config) := by
  have happly : ∀ s, (c.applyLogLevel rt s).minLogLevel = s ∧
      LogsOnly { c with minLogLevel := s } (c.applyLogLevel rt s) := by
    intro s
    have hl : LogsOnly { c with minLogLevel := s } (c.applyLogLevel rt s) :=
      (LogsOnly.logger _ _).trans (LogsOnly.LogInfo _ rt _)
    exact ⟨hl.fields.2.2.2.2.1, hl⟩
  unfold Client.updateLogLevel
  rcases (mapGet config "sdk").bind Value.asMap with _ | sdkConfig
  · dsimp only
    rcases (mapGet config "log_level").bind Value.asString with _ | s
    · exact ⟨rfl, LogsOnly.refl _⟩
    · dsimp only
      rw [(happly s).1]
      exact ⟨rfl, (happly s).2⟩
  · dsimp only
    rcases (mapGet sdkConfig "log_level").bind Value.asString with _ | s
    · exact ⟨rfl, LogsOnly.refl _⟩
    · dsimp only
      rw [(happly s).1]
      exact ⟨rfl, (happly s).2⟩

/-- Persistence fails: log traffic, one failure acknowledgment, log traffic. -/
theorem handleConfigUpdate_save_failed (c : Client) (rt : Runtime) (msg : Msg)
    (configData : ConfigData) (e : String)
    (h : rt.unmarshalConfig msg.Data = .ok configData)
    (hs : c.saveConfig rt c.getConfigPath configData.Config = some e) :
    ∃ c1, LogsOnly c c1 ∧
      LogsOnly
        (withPublished c1 ⟨c.topics.ConfigAck, ackPayload false ("Failed to save config: " ++ e),
          (rt.connPublish c.topics.ConfigAck
            (ackPayload false ("Failed to save config: " ++ e))).isNone⟩)
        (c.handleConfigUpdate rt msg) := by
  unfold Client.handleConfigUpdate
  simp only [h, hs]
  refine ⟨c.LogError rt ("Failed to save config: " ++ e), LogsOnly.LogError c rt _, ?_⟩
  have ht := (LogsOnly.LogError c rt ("Failed to save config: " ++ e)).topics
  have := sendConfigAck_spec (c.LogError rt ("Failed to save config: " ++ e)) rt false
    ("Failed to save config: " ++ e)
  rw [ht] at this
  exact this

/-- The handler rejects the configuration: it was invoked once, then log traffic,
one failure acknowledgment, log traffic. -/
theorem handleConfigUpdate_apply_failed (c : Client) (rt : Runtime) (msg : Msg)
    (configData : ConfigData) (handler : ConfigHandler) (e : String)
    (h : rt.unmarshalConfig msg.Data = .ok configData)
    (hs : c.saveConfig rt c.getConfigPath configData.Config = none)
    (hh : c.configHandler = some handler) (he : handler configData.Config = some e) :
    ∃ c1,
      LogsOnly { c with configHandlerCalls := c.configHandlerCalls ++ [configData.Config] } c1 ∧
      LogsOnly
        (withPublished c1 ⟨c.topics.ConfigAck, ackPayload false ("Failed to apply config: " ++ e),
          (rt.connPublish c.topics.ConfigAck
            (ackPayload false ("Failed to apply config: " ++ e))).isNone⟩)
        (c.handleConfigUpdate rt msg) := by
  have hc : c.callConfigHandler configData.Config =
      ({ c with configHandlerCalls := c.configHandlerCalls ++ [configData.Config] }, some e) := by
    unfold Client.callConfigHandler
    rw [hh]
    simp only [he]
  unfold Client.handleConfigUpdate
  simp only [h, hs, hc]
  refine ⟨_, LogsOnly.LogError _ rt ("Failed to apply config: " ++ e), ?_⟩
  have ht := (LogsOnly.LogError
    { c with configHandlerCalls := c.configHandlerCalls ++ [configData.Config] } rt
    ("Failed to apply config: " ++ e)).topics
  have := sendConfigAck_spec (Client.LogError
    { c with configHandlerCalls := c.configHandlerCalls ++ [configData.Config] } rt
    ("Failed to apply config: " ++ e)) rt false ("Failed to apply config: " ++ e)
  rw [ht] at this
  exact this

/-- Persistence and the handler succeed: the log level block runs, then one
success acknowledgment is handed over, then log traffic. -/
theorem handleConfigUpdate_applied (c : Client) (rt : Runtime) (msg : Msg)
    (configData : ConfigData)
    (h : rt.unmarshalConfig msg.Data = .ok configData)
    (hs : c.saveConfig rt c.getConfigPath configData.Config = none)
    (hh : (c.callConfigHandler configData.Config).2 = none) :
    LogsOnly
      (withPublished ((c.callConfigHandler configData.Config).1.updateLogLevel rt configData.Config)
        ⟨c.topics.ConfigAck, ackPayload true "Config updated successfully",
          (rt.connPublish c.topics.ConfigAck
            (ackPayload true "Config updated successfully")).isNone⟩)
      (c.handleConfigUpdate rt msg) := by
  have ht0 : (c.callConfigHandler configData.Config).1.topics = c.topics := by
    unfold Client.callConfigHandler
    cases c.configHandler <;> rfl
  have ht : ((c.callConfigHandler configData.Config).1.updateLogLevel rt configData.Config).topics =
      c.topics := by
    rw [(updateLogLevel_spec _ rt _).2.topics]
    exact ht0
  have hack := sendConfigAck_spec
    ((c.callConfigHandler configData.Config).1.updateLogLevel rt configData.Config) rt true
    "Config updated successfully"
  rw [ht] at hack
  unfold Client.handleConfigUpdate
  simp only [h, hs]
  rcases hc : c.callConfigHandler configData.Config with ⟨c0, _ | e⟩
  · rw [hc] at hack
    exact hack.trans (LogsOnly.LogInfo _ rt _)
  · rw [hc] at hh
    cases hh

theorem logs_ne_configAck (tb : TopicBuilder) : tb.Logs ≠ tb.ConfigAck := by
  intro h
  have h2 := congrArg String.data h
  simp only [TopicBuilder.Logs, TopicBuilder.ConfigAck, String.data_append,
    List.append_cancel_left_eq] at h2
  revert h2
  decide

theorem onSubject_logs (tb : TopicBuilder) (l : List Published) (h : ∀ p ∈ l, IsLogOn tb p) :
    onSubject tb.ConfigAck l = [] := by
  unfold onSubject
  rw [List.filter_eq_nil_iff]
  intro p hp
  have hsub := (h p hp).1
  simp only [decide_eq_true_eq]
  rw [hsub]
  exact logs_ne_configAck tb

/-- The shape of the publish record after log traffic, one publish call, and log
traffic again. -/
theorem published_sandwich {c c1 c' : Client} (x : Published)
    (h1 : ∃ new : List Published, c1.nats.published = c.nats.published ++ new ∧
      ∀ p ∈ new, IsLogOn c.topics p)
    (ht : c1.topics = c.topics)
    (h2 : LogsOnly (withPublished c1 x) c') :
    ∃ pre post : List Published,
      c'.nats.published = c.nats.published ++ (pre ++ x :: post) ∧
      ∀ p ∈ pre ++ post, IsLogOn c.topics p := by
  obtain ⟨pre, hp1, hq1⟩ := h1
  obtain ⟨_, _, post, hp2, hq2⟩ := h2
  refine ⟨pre, post, ?_, ?_⟩
  · rw [hp2]
    simp [withPublished, hp1]
  · intro p hp
    rcases List.mem_append.mp hp with hp | hp
    · exact hq1 p hp
    · have := hq2 p hp
      simp only [withPublished, ht] at this
      exact this

/-- The publish record after a decoded config push: log records around exactly
one acknowledgment, whose `success` tells whether persistence and the handler
both succeeded. -/
theorem handleConfigUpdate_published (c : Client) (rt : Runtime) (msg : Msg)
    (configData : ConfigData) (h : rt.unmarshalConfig msg.Data = .ok configData) :
    ∃ (pre post : List Published) (success : Bool) (message : String),
      (c.handleConfigUpdate rt msg).nats.published =
        c.nats.published ++
          (pre ++ ⟨c.topics.ConfigAck, ackPayload success message,
            (rt.connPublish c.topics.ConfigAck (ackPayload success message)).isNone⟩ :: post) ∧
      (∀ p ∈ pre ++ post, IsLogOn c.topics p) ∧
      (success = true ↔
        (c.saveConfig rt c.getConfigPath configData.Config = none ∧
          ∀ handler, c.configHandler = some handler → handler configData.Config = none)) := by
  rcases hs : c.saveConfig rt c.getConfigPath configData.Config with _ | e
  · by_cases hh : (c.callConfigHandler configData.Config).2 = none
    · have hl := handleConfigUpdate_applied c rt msg configData h hs hh
      have hu := (updateLogLevel_spec (c.callConfigHandler configData.Config).1 rt
        configData.Config).2
      have hc0 : (c.callConfigHandler configData.Config).1.nats = c.nats ∧
          (c.callConfigHandler configData.Config).1.topics = c.topics := by
        unfold Client.callConfigHandler
        cases c.configHandler <;> exact ⟨rfl, rfl⟩
      have hpre : ∃ new : List Published,
          ((c.callConfigHandler configData.Config).1.updateLogLevel rt configData.Config
            ).nats.published = c.nats.published ++ new ∧ ∀ p ∈ new, IsLogOn c.topics p := by
        obtain ⟨_, _, new, hp, hq⟩ := hu
        refine ⟨new, ?_, ?_⟩
        · rw [hp]; simp only [hc0.1]
        · intro p hpn
          have := hq p hpn
          simp only [hc0.2] at this
          exact this
      have ht : ((c.callConfigHandler configData.Config).1.updateLogLevel rt
          configData.Config).topics = c.topics := by
        rw [hu.topics]; exact hc0.2
      obtain ⟨pre, post, hp, hq⟩ := published_sandwich _ hpre ht hl
      refine ⟨pre, post, true, "Config updated successfully", hp, hq, ?_⟩
      simp only [true_and, true_iff]
      intro handler hhd
      unfold Client.callConfigHandler at hh
      rw [hhd] at hh
      exact hh
    · have hex : ∃ handler e, c.configHandler = some handler ∧
          handler configData.Config = some e := by
        unfold Client.callConfigHandler at hh
        rcases hcfg : c.configHandler with _ | handler
        · rw [hcfg] at hh; exact absurd rfl hh
        · rw [hcfg] at hh
          rcases he : handler configData.Config with _ | e
          · exact absurd he hh
          · exact ⟨handler, e, rfl, he⟩
      obtain ⟨handler, e, hhd, he⟩ := hex
      obtain ⟨c1, hl1, hl2⟩ :=
        handleConfigUpdate_apply_failed c rt msg configData handler e h hs hhd he
      obtain ⟨pre, post, hp, hq⟩ := published_sandwich _ hl1.2.2 hl1.topics hl2
      refine ⟨pre, post, false, "Failed to apply config: " ++ e, hp, hq, ?_⟩
      simp only [Bool.false_eq_true, true_and, false_iff, not_forall]
      exact ⟨handler, hhd, by rw [he]; simp⟩
  · obtain ⟨c1, hl1, hl2⟩ := handleConfigUpdate_save_failed c rt msg configData e h hs
    obtain ⟨pre, post, hp, hq⟩ := published_sandwich _ hl1.2.2 hl1.topics hl2
    refine ⟨pre, post, false, "Failed to save config: " ++ e, hp, hq, ?_⟩
    simp

/-! ## Config pushes -/

/-- C3: for every config push that decodes, `handleConfigUpdate` hands exactly one
message on the config.ack subject to the connection (the others it hands over are
log records on the logs subject); it is the acknowledgment map, and its `success`
entry is true exactly when persistence succeeded and the registered handler, if
any, returned no error. The connection accepts it exactly when `conn.Publish`
returns nil. -/
theorem handleConfigUpdate_one_ack (c : Client) (rt : Runtime) (msg : Msg)
    (configData : ConfigData) (h : rt.unmarshalConfig msg.Data = .ok configData) :
    ∃ (pre post : List Published) (ack : Published) (success : Bool) (message : String),
      (c.handleConfigUpdate rt msg).nats.published = c.nats.published ++ (pre ++ ack :: post) ∧
      (∀ p ∈ pre ++ post, IsLogOn c.topics p) ∧
      onSubject c.topics.ConfigAck (pre ++ ack :: post) = [ack] ∧
      ack.subject = c.topics.ConfigAck ∧
      ack.data = ackPayload success message ∧
      ackSuccess ack = some (Value.bool success) ∧
      (ack.accepted = true ↔ rt.connPublish c.topics.ConfigAck ack.data = none) ∧
      (success = true ↔
        (c.saveConfig rt c.getConfigPath configData.Config = none ∧
          ∀ handler, c.configHandler = some handler → handler configData.Config = none)) := by
  obtain ⟨pre, post, success, message, hp, hq, hiff⟩ :=
    handleConfigUpdate_published c rt msg configData h
  refine ⟨pre, post, _, success, message, hp, hq, ?_, rfl, rfl, ?_, ?_, hiff⟩
  · have hpre : onSubject c.topics.ConfigAck pre = [] :=
      onSubject_logs c.topics pre (fun p hp => hq p (List.mem_append_left _ hp))
    have hpost : onSubject c.topics.ConfigAck post = [] :=
      onSubject_logs c.topics post (fun p hp => hq p (List.mem_append_right _ hp))
    unfold onSubject at hpre hpost ⊢
    rw [List.filter_append, hpre, List.filter_cons]
    simp [hpost]
  · simp [ackSuccess, ackPayload, mapGet]
  · simp [Option.isNone_iff_eq_none]

/-- Witness of C3: the push of `sdk.log_level = "Debug"` on the sample client. The
minimum level becomes `Debug` and one acknowledgment with `success = true` is
published. -/
theorem handleConfigUpdate_one_ack_witness :
    exampleRuntime.unmarshalConfig (Msg.mk "nested config" "").Data = .ok nestedConfig ∧
    (exampleClient.handleConfigUpdate exampleRuntime ⟨"nested config", ""⟩).minLogLevel = "Debug" ∧
    ∃ (pre post : List Published) (ack : Published) (success : Bool) (message : String),
      (exampleClient.handleConfigUpdate exampleRuntime ⟨"nested config", ""⟩).nats.published =
        exampleClient.nats.published ++ (pre ++ ack :: post) ∧
      (∀ p ∈ pre ++ post, IsLogOn exampleClient.topics p) ∧
      onSubject exampleClient.topics.ConfigAck (pre ++ ack :: post) = [ack] ∧
      ack.subject = exampleClient.topics.ConfigAck ∧
      ack.data = ackPayload success message ∧
      ackSuccess ack = some (Value.bool success) ∧
      (ack.accepted = true ↔
        exampleRuntime.connPublish exampleClient.topics.ConfigAck ack.data = none) ∧
      (success = true ↔
        (exampleClient.saveConfig exampleRuntime exampleClient.getConfigPath
            nestedConfig.Config = none ∧
          ∀ handler, exampleClient.configHandler = some handler →
            handler nestedConfig.Config = none)) :=
  ⟨rfl, by decide,
    handleConfigUpdate_one_ack exampleClient exampleRuntime ⟨"nested config", ""⟩ nestedConfig rfl⟩

/-- The minimum log level after a decoded config push that was persisted and
applied is the one the log level block computes: the string under
`sdk.log_level` when `sdk` is a map; the string under the top-level `log_level`
when `sdk` is not a map; the old level otherwise. -/
theorem handleConfigUpdate_minLogLevel (c : Client) (rt : Runtime) (msg : Msg)
    (configData : ConfigData) (h : rt.unmarshalConfig msg.Data = .ok configData)
    (hs : c.saveConfig rt c.getConfigPath configData.Config = none)
    (hh : ∀ handler, c.configHandler = some handler → handler configData.Config = none) :
    (c.handleConfigUpdate rt msg).minLogLevel =
      (match (mapGet configData.Config "sdk").bind Value.asMap with
        | some sdkConfig =>
          (match (mapGet sdkConfig "log_level").bind Value.asString with
            | some s => s
            | none => c.minLogLevel)
        | none =>
          (match (mapGet configData.Config "log_level").bind Value.asString with
            | some s => s
            | none => c.minLogLevel)) := by
  have hh2 : (c.callConfigHandler configData.Config).2 = none := by
    unfold Client.callConfigHandler
    rcases hcfg : c.configHandler with _ | handler
    · rfl
    · exact hh handler hcfg
  have hl := handleConfigUpdate_applied c rt msg configData h hs hh2
  have hm : (c.callConfigHandler configData.Config).1.minLogLevel = c.minLogLevel := by
    unfold Client.callConfigHandler
    cases c.configHandler <;> rfl
  have h1 := hl.fields.2.2.2.2.1
  have h2 := (updateLogLevel_spec (c.callConfigHandler configData.Config).1 rt
    configData.Config).1
  rw [h1]
  simp only [withPublished]
  rw [h2, hm]

/-- C4, the behaviour of the code at the failing input: the pushed map has an
`sdk` object without a log level and the string `Debug` under the top-level
`log_level`; persistence succeeds and no handler is registered; the minimum log
level stays `Info`. The same top-level key in a map without `sdk` is honoured:
there the level becomes `Warn`. -/
theorem mixed_config_level_unchanged :
    exampleRuntime.unmarshalConfig (Msg.mk "mixed config" "").Data = .ok mixedConfig ∧
    exampleClient.saveConfig exampleRuntime exampleClient.getConfigPath mixedConfig.Config = none ∧
    (exampleClient.configHandler.isNone = true) ∧
    ((mapGet mixedConfig.Config "sdk").bind Value.asMap).isSome = true ∧
    (((mapGet mixedConfig.Config "sdk").bind Value.asMap).bind
      (fun sdkConfig => (mapGet sdkConfig "log_level").bind Value.asString)) = none ∧
    (mapGet mixedConfig.Config "log_level").bind Value.asString = some "Debug" ∧
    exampleClient.minLogLevel = "Info" ∧
    (exampleClient.handleConfigUpdate exampleRuntime ⟨"mixed config", ""⟩).minLogLevel = "Info" ∧
    exampleRuntime.unmarshalConfig (Msg.mk "legacy config" "").Data = .ok legacyConfig ∧
    (mapGet legacyConfig.Config "sdk").isNone = true ∧
    (mapGet legacyConfig.Config "log_level").bind Value.asString = some "Warn" ∧
    (exampleClient.handleConfigUpdate exampleRuntime ⟨"legacy config", ""⟩).minLogLevel = "Warn" := by
  refine ⟨rfl, rfl, rfl, rfl, rfl, rfl, rfl, ?_, rfl, rfl, rfl, ?_⟩ <;> decide

/-- C5: for every decoded config push, if persistence fails the config handler
is not invoked and the minimum log level stays as it was; if the registered
handler returns an error the minimum log level stays as it was; so the level
changes only when persistence succeeded and the handler, if any, returned no
error. -/
theorem handleConfigUpdate_failure_keeps_level (c : Client) (rt : Runtime) (msg : Msg)
    (configData : ConfigData) (h : rt.unmarshalConfig msg.Data = .ok configData) :
    (c.saveConfig rt c.getConfigPath configData.Config ≠ none →
      (c.handleConfigUpdate rt msg).configHandlerCalls = c.configHandlerCalls ∧
      (c.handleConfigUpdate rt msg).minLogLevel = c.minLogLevel) ∧
    (∀ handler e, c.configHandler = some handler → handler configData.Config = some e →
      (c.handleConfigUpdate rt msg).minLogLevel = c.minLogLevel) ∧
    ((c.handleConfigUpdate rt msg).minLogLevel ≠ c.minLogLevel →
      c.saveConfig rt c.getConfigPath configData.Config = none ∧
      ∀ handler, c.configHandler = some handler → handler configData.Config = none) := by
  have hfail : ∀ e, c.saveConfig rt c.getConfigPath configData.Config = some e →
      (c.handleConfigUpdate rt msg).configHandlerCalls = c.configHandlerCalls ∧
      (c.handleConfigUpdate rt msg).minLogLevel = c.minLogLevel := by
    intro e hs
    obtain ⟨c1, hl1, hl2⟩ := handleConfigUpdate_save_failed c rt msg configData e h hs
    have f1 := hl1.fields
    have f2 := hl2.fields
    exact ⟨f2.2.2.2.2.2.2.2.2.1.trans f1.2.2.2.2.2.2.2.2.1, f2.2.2.2.2.1.trans f1.2.2.2.2.1⟩
  have hrej : ∀ handler e, c.configHandler = some handler →
      handler configData.Config = some e →
      (c.handleConfigUpdate rt msg).minLogLevel = c.minLogLevel := by
    intro handler e hhd he
    rcases hs : c.saveConfig rt c.getConfigPath configData.Config with _ | e'
    · obtain ⟨c1, hl1, hl2⟩ :=
        handleConfigUpdate_apply_failed c rt msg configData handler e h hs hhd he
      exact hl2.fields.2.2.2.2.1.trans hl1.fields.2.2.2.2.1
    · exact (hfail e' hs).2
  refine ⟨?_, hrej, ?_⟩
  · intro hne
    rcases hs : c.saveConfig rt c.getConfigPath configData.Config with _ | e
    · exact absurd hs hne
    · exact hfail e hs
  · intro hchg
    constructor
    · rcases hs : c.saveConfig rt c.getConfigPath configData.Config with _ | e
      · rfl
      · exact absurd (hfail e hs).2 hchg
    · intro handler hhd
      rcases he : handler configData.Config with _ | e
      · rfl
      · exact absurd (hrej handler e hhd he) hchg

/-- Witness of C5: the pushed map carries `sdk.log_level = "Debug"` and the
registered handler rejects everything. With a full disk the handler is not
invoked and the level stays `Info`; with a working disk the handler is invoked,
rejects, and the level stays `Info`. -/
theorem handleConfigUpdate_failure_keeps_level_witness :
    fullDiskRuntime.unmarshalConfig (Msg.mk "nested config" "").Data = .ok nestedConfig ∧
    rejectingClient.saveConfig fullDiskRuntime rejectingClient.getConfigPath
      nestedConfig.Config ≠ none ∧
    ((rejectingClient.handleConfigUpdate fullDiskRuntime ⟨"nested config", ""⟩).configHandlerCalls
        = rejectingClient.configHandlerCalls ∧
      (rejectingClient.handleConfigUpdate fullDiskRuntime ⟨"nested config", ""⟩).minLogLevel
        = rejectingClient.minLogLevel) ∧
    exampleRuntime.unmarshalConfig (Msg.mk "nested config" "").Data = .ok nestedConfig ∧
    rejectingClient.configHandler = some rejectingHandler ∧
    rejectingHandler nestedConfig.Config = some "bad value" ∧
    (rejectingClient.handleConfigUpdate exampleRuntime ⟨"nested config", ""⟩).minLogLevel
      = rejectingClient.minLogLevel :=
  ⟨rfl, by decide,
    (handleConfigUpdate_failure_keeps_level rejectingClient fullDiskRuntime ⟨"nested config", ""⟩
      nestedConfig rfl).1 (by decide),
    rfl, rfl, rfl,
    (handleConfigUpdate_failure_keeps_level rejectingClient exampleRuntime ⟨"nested config", ""⟩
      nestedConfig rfl).2.1 rejectingHandler "bad value" rfl rfl⟩

/-! ## Log gating -/

/-- The map literal of `shouldReportLog` is the ordinal of the specification. -/
theorem levelsGet_levels (name : String) : levelsGet levels name = levelOrdinal name := by
  unfold levelOrdinal levels
  simp only [levelsGet, LogLevelTrace, LogLevelDebug, LogLevelInfo, LogLevelWarn, LogLevelError,
    LogLevelFatal, LogLevelPanic, @eq_comm _ "Trace" name, @eq_comm _ "Debug" name,
    @eq_comm _ "Info" name, @eq_comm _ "Warn" name, @eq_comm _ "Error" name,
    @eq_comm _ "Fatal" name, @eq_comm _ "Panic" name]

/-- C2: `shouldReportLog Y X` is true exactly when `Y` or `X` is not one of the
seven recognised names or the ordinal of `Y` is at least the ordinal of `X`, the
ordinals being Trace = 0 up to Panic = 6; the minimum `Warn` rejects `Debug` and
accepts `Error`; and on a running client with minimum level `X` the forwarder
`log` hands a record of level `Y` to the connection exactly when
`shouldReportLog Y X` holds. -/
theorem shouldReportLog_iff_ordinal (Y X : String) :
    (shouldReportLog Y X = true ↔
      (levelOrdinal Y = none ∨ levelOrdinal X = none ∨
        ∃ y x, levelOrdinal Y = some y ∧ levelOrdinal X = some x ∧ y ≥ x)) ∧
    (List.map levelOrdinal ["Trace", "Debug", "Info", "Warn", "Error", "Fatal", "Panic"] =
      [some 0, some 1, some 2, some 3, some 4, some 5, some 6]) ∧
    shouldReportLog "Debug" "Warn" = false ∧
    shouldReportLog "Error" "Warn" = true ∧
    (∀ (c : Client) (rt : Runtime) (message : String),
      (({ c with running := true, minLogLevel := X }).log rt Y message).nats.published =
        c.nats.published ++
          (if shouldReportLog Y X = true then
            [⟨c.topics.Logs, .log { Level := Y, Message := message, Timestamp := rt.now },
              (rt.connPublish c.topics.Logs
                (.log { Level := Y, Message := message, Timestamp := rt.now })).isNone⟩]
          else [])) := by
  refine ⟨?_, by decide, by decide, by decide, ?_⟩
  · unfold shouldReportLog
    rw [levelsGet_levels, levelsGet_levels]
    cases levelOrdinal Y <;> cases levelOrdinal X <;> simp
  · intro c rt message
    unfold Client.log NATSClient.Publish Client.isRunning
    simp only [Payload.marshalErr]
    cases hs : shouldReportLog Y X
    · simp
    · cases hp : rt.connPublish c.topics.Logs
          (.log { Level := Y, Message := message, Timestamp := rt.now }) <;> simp [hp]

/-! ## Lemmas on the transition system -/

theorem Publish_closeCalls (nc : NATSClient) (rt : Runtime) (subject : String) (data : Payload) :
    (nc.Publish rt subject data).1.closeCalls = nc.closeCalls := by
  unfold NATSClient.Publish
  split
  · rfl
  · split <;> rfl

/-- A publish call followed by the local error entry keeps the lifecycle fields. -/
theorem publish_sameCore (c : Client) (r : NATSClient × Option String) (f : String → Logger) :
    r.1.closeCalls = c.nats.closeCalls →
    SameCore c
      (match r with
        | (nc, some err) => { c with nats := nc, logger := f err }
        | (nc, none) => { c with nats := nc }) := by
  obtain ⟨nc, _ | e⟩ := r <;> exact fun hr => ⟨rfl, rfl, rfl, rfl, hr⟩

theorem EmitEvent_sameCore (c : Client) (rt : Runtime) (event : String) (data : GoMap) :
    SameCore c (c.EmitEvent rt event data) := by
  unfold Client.EmitEvent
  split
  · exact SameCore.core_refl c
  · exact publish_sameCore c _
      (fun err => c.logger.Errorf ("Failed to publish event: " ++ err))
      (Publish_closeCalls _ _ _ _)

theorem ReportStatus_sameCore (c : Client) (rt : Runtime) (data : GoMap) :
    SameCore c (c.ReportStatus rt data) := by
  unfold Client.ReportStatus
  split
  · exact SameCore.core_refl c
  · exact publish_sameCore c _
      (fun err => c.logger.Errorf ("Failed to publish status: " ++ err))
      (Publish_closeCalls _ _ _ _)

theorem sendHeartbeat_sameCore (c : Client) (rt : Runtime) :
    SameCore c (c.sendHeartbeat rt) := by
  unfold Client.sendHeartbeat
  split
  · exact SameCore.core_refl c
  · exact publish_sameCore c _
      (fun err => c.logger.Errorf ("Failed to publish heartbeat: " ++ err))
      (Publish_closeCalls _ _ _ _)

theorem handleCommand_sameCore (c : Client) (rt : Runtime) (msg : Msg) :
    SameCore c (c.handleCommand rt msg) := by
  rcases h : rt.unmarshalCommand msg.Data with e | cmd
  · unfold Client.handleCommand
    simp only [h]
    exact (LogsOnly.LogError c rt _).sameCore
  · rcases handleCommand_decoded c rt msg cmd h with ⟨_, hl⟩ | ⟨_, acc, hl⟩
    · exact hl.sameCore
    · exact (withPublished_sameCore c _).core_trans hl.sameCore

theorem callConfigHandler_sameCore (c : Client) (config : GoMap) :
    SameCore c (c.callConfigHandler config).1 := by
  unfold Client.callConfigHandler
  cases c.configHandler <;> exact ⟨rfl, rfl, rfl, rfl, rfl⟩

theorem handleConfigUpdate_sameCore (c : Client) (rt : Runtime) (msg : Msg) :
    SameCore c (c.handleConfigUpdate rt msg) := by
  rcases h : rt.unmarshalConfig msg.Data with e | configData
  · unfold Client.handleConfigUpdate
    simp only [h]
    exact (LogsOnly.LogError c rt _).sameCore
  · rcases hs : c.saveConfig rt c.getConfigPath configData.Config with _ | e
    · by_cases hh : (c.callConfigHandler configData.Config).2 = none
      · have hl := handleConfigUpdate_applied c rt msg configData h hs hh
        have hu := (updateLogLevel_spec (c.callConfigHandler configData.Config).1 rt
          configData.Config).2
        have h0 : SameCore (c.callConfigHandler configData.Config).1
            ((c.callConfigHandler configData.Config).1.updateLogLevel rt configData.Config) :=
          SameCore.core_trans ⟨rfl, rfl, rfl, rfl, rfl⟩ hu.sameCore
        exact (callConfigHandler_sameCore c _).core_trans
          (h0.core_trans ((withPublished_sameCore _ _).core_trans hl.sameCore))
      · have hex : ∃ handler e, c.configHandler = some handler ∧
            handler configData.Config = some e := by
          unfold Client.callConfigHandler at hh
          rcases hcfg : c.configHandler with _ | handler
          · rw [hcfg] at hh; exact absurd rfl hh
          · rw [hcfg] at hh
            rcases he : handler configData.Config with _ | e
            · exact absurd he hh
            · exact ⟨handler, e, rfl, he⟩
        obtain ⟨handler, e, hhd, he⟩ := hex
        obtain ⟨c1, hl1, hl2⟩ :=
          handleConfigUpdate_apply_failed c rt msg configData handler e h hs hhd he
        exact SameCore.core_trans ⟨rfl, rfl, rfl, rfl, rfl⟩
          (hl1.sameCore.core_trans ((withPublished_sameCore _ _).core_trans hl2.sameCore))
    · obtain ⟨c1, hl1, hl2⟩ := handleConfigUpdate_save_failed c rt msg configData e h hs
      exact hl1.sameCore.core_trans ((withPublished_sameCore _ _).core_trans hl2.sameCore)

/-- Every operation but `Close` keeps the lifecycle fields. -/
theorem step_sameCore (rt : Runtime) (c : Client) (op : Op) (h : op ≠ Op.Close) :
    SameCore c (step rt c op) := by
  cases op with
  | Close => exact absurd rfl h
  | SetHeartbeatCallback callback => exact ⟨rfl, rfl, rfl, rfl, rfl⟩
  | OnCommand handler => exact ⟨rfl, rfl, rfl, rfl, rfl⟩
  | OnConfig handler => exact ⟨rfl, rfl, rfl, rfl, rfl⟩
  | GetLogger => exact SameCore.core_refl c
  | SetMinLogLevel level => exact ⟨rfl, rfl, rfl, rfl, rfl⟩
  | LogTrace message => exact (LogsOnly.LogTrace c rt message).sameCore
  | LogDebug message => exact (LogsOnly.LogDebug c rt message).sameCore
  | LogInfo message => exact (LogsOnly.LogInfo c rt message).sameCore
  | LogWarn message => exact (LogsOnly.LogWarn c rt message).sameCore
  | LogError message => exact (LogsOnly.LogError c rt message).sameCore
  | LogFatal message => exact ⟨rfl, rfl, rfl, rfl, rfl⟩
  | LogPanic message => exact ⟨rfl, rfl, rfl, rfl, rfl⟩
  | EmitEvent event data => exact EmitEvent_sameCore c rt event data
  | ReportStatus data => exact ReportStatus_sameCore c rt data
  | GetUptime => exact SameCore.core_refl c
  | LoadConfig => exact SameCore.core_refl c
  | handleCommand msg => exact handleCommand_sameCore c rt msg
  | handleConfigUpdate msg => exact handleConfigUpdate_sameCore c rt msg
  | sendHeartbeat => exact sendHeartbeat_sameCore c rt

/-- One operation keeps the identity and the subjects of the client, and on a
client that is not running it keeps all the lifecycle fields. -/
theorem step_lifecycle (rt : Runtime) (c : Client) (op : Op) :
    (step rt c op).opts = c.opts ∧ (step rt c op).topics = c.topics ∧
    (c.running = false → SameCore c (step rt c op)) := by
  by_cases h : op = Op.Close
  · subst h
    unfold step Client.Close
    cases hr : c.running
    · exact ⟨rfl, rfl, fun _ => ⟨rfl, rfl, by simp [hr], rfl, rfl⟩⟩
    · exact ⟨rfl, rfl, fun hf => by cases hf⟩
  · have hc := step_sameCore rt c op h
    exact ⟨hc.1, hc.2.1, fun _ => hc⟩

/-- A sequence of operations keeps the identity and the subjects of the client,
and on a client that is not running it keeps all the lifecycle fields. -/
theorem run_lifecycle (ops : List (Runtime × Op)) (c : Client) :
    (run c ops).opts = c.opts ∧ (run c ops).topics = c.topics ∧
    (c.running = false → SameCore c (run c ops)) := by
  induction ops generalizing c with
  | nil => exact ⟨rfl, rfl, fun _ => SameCore.core_refl c⟩
  | cons x rest ih =>
    obtain ⟨rt, op⟩ := x
    obtain ⟨h1, h2, h3⟩ := step_lifecycle rt c op
    obtain ⟨i1, i2, i3⟩ := ih (step rt c op)
    refine ⟨?_, ?_, ?_⟩
    · show (run (step rt c op) rest).opts = c.opts
      rw [i1, h1]
    · show (run (step rt c op) rest).topics = c.topics
      rw [i2, h2]
    · intro hr
      have hs := h3 hr
      have hr2 : (step rt c op).running = false := by rw [hs.2.2.1]; exact hr
      exact hs.core_trans (i3 hr2)

/-! ## Subjects -/

/-- C8: for every application key `k` the eight methods of the subject builder
return `"app." ++ k ++ "." ++ suffix` with the suffixes heartbeat, logs, events,
status, cmd, cmd.result, config.set and config.ack; the methods are functions of
the key alone, and no operation of the client changes the builder, so they
return the same strings at every call. -/
theorem topic_subjects (k : String) :
    (NewTopicBuilder k).Heartbeat = "app." ++ k ++ "." ++ "heartbeat" ∧
    (NewTopicBuilder k).Logs = "app." ++ k ++ "." ++ "logs" ∧
    (NewTopicBuilder k).Events = "app." ++ k ++ "." ++ "events" ∧
    (NewTopicBuilder k).Status = "app." ++ k ++ "." ++ "status" ∧
    (NewTopicBuilder k).Command = "app." ++ k ++ "." ++ "cmd" ∧
    (NewTopicBuilder k).CommandResult = "app." ++ k ++ "." ++ "cmd.result" ∧
    (NewTopicBuilder k).ConfigSet = "app." ++ k ++ "." ++ "config.set" ∧
    (NewTopicBuilder k).ConfigAck = "app." ++ k ++ "." ++ "config.ack" ∧
    (∀ tb : TopicBuilder, tb = NewTopicBuilder tb.appKey) ∧
    (∀ (c : Client) (ops : List (Runtime × Op)), (run c ops).topics = c.topics) := by
  have hs : ∀ suffix : String, "app." ++ k ++ "." ++ suffix = "app." ++ k ++ ("." ++ suffix) :=
    fun suffix => String.append_assoc _ _ _
  refine ⟨?_, ?_, ?_, ?_, ?_, ?_, ?_, ?_, fun tb => rfl, fun c ops => (run_lifecycle ops c).2.1⟩ <;>
    rw [hs] <;> rfl

/-! ## Shutdown -/

/-- C9: `Close` always returns nil and a second `Close` changes nothing; on a
client that is not running `Close` returns the client as it is; on a running
client it sets `running` to false and closes the stop signal and the transport
once; and from a client that is not running no sequence of operations sets
`running` back to true, closes the stop signal again or closes the transport
again. -/
theorem close_idempotent (c : Client) (ops : List (Runtime × Op)) :
    c.Close.2 = none ∧
    c.Close.1.Close = (c.Close.1, none) ∧
    (c.running = false → c.Close = (c, none)) ∧
    (c.running = true →
      c.Close.1.running = false ∧
      c.Close.1.heartbeatStop.closes = c.heartbeatStop.closes + 1 ∧
      c.Close.1.nats.closeCalls = c.nats.closeCalls + 1) ∧
    (c.running = false →
      (run c ops).running = false ∧
      (run c ops).heartbeatStop = c.heartbeatStop ∧
      (run c ops).nats.closeCalls = c.nats.closeCalls) := by
  refine ⟨?_, ?_, ?_, ?_, ?_⟩
  · unfold Client.Close
    cases c.running <;> rfl
  · unfold Client.Close
    cases hr : c.running <;> simp [hr]
  · intro hr
    unfold Client.Close
    simp [hr]
  · intro hr
    unfold Client.Close NATSClient.Close
    simp [hr]
  · intro hr
    obtain ⟨_, _, h3, h4, h5⟩ := (run_lifecycle ops c).2.2 hr
    exact ⟨h3.trans hr, h4, h5⟩

/-- Witness of C9: the sample client is running; after `Close` it is not, and a
heartbeat tick, a log call, a config push and a second `Close` leave it so. -/
theorem close_idempotent_witness :
    exampleClient.running = true ∧
    (exampleClient.Close.1.running = false ∧
      exampleClient.Close.1.heartbeatStop.closes = exampleClient.heartbeatStop.closes + 1 ∧
      exampleClient.Close.1.nats.closeCalls = exampleClient.nats.closeCalls + 1) ∧
    exampleClient.Close.1.running = false ∧
    ((run exampleClient.Close.1
        [(exampleRuntime, Op.sendHeartbeat), (exampleRuntime, Op.LogInfo "still here"),
         (exampleRuntime, Op.handleConfigUpdate ⟨"nested config", ""⟩),
         (exampleRuntime, Op.Close)]).running = false ∧
      (run exampleClient.Close.1
        [(exampleRuntime, Op.sendHeartbeat), (exampleRuntime, Op.LogInfo "still here"),
         (exampleRuntime, Op.handleConfigUpdate ⟨"nested config", ""⟩),
         (exampleRuntime, Op.Close)]).heartbeatStop = exampleClient.Close.1.heartbeatStop ∧
      (run exampleClient.Close.1
        [(exampleRuntime, Op.sendHeartbeat), (exampleRuntime, Op.LogInfo "still here"),
         (exampleRuntime, Op.handleConfigUpdate ⟨"nested config", ""⟩),
         (exampleRuntime, Op.Close)]).nats.closeCalls = exampleClient.Close.1.nats.closeCalls) :=
  ⟨rfl, (close_idempotent exampleClient []).2.2.2.1 rfl, rfl,
    (close_idempotent exampleClient.Close.1 _).2.2.2.2 rfl⟩

/-! ## Telemetry after shutdown -/

/-- C10: on a client with `running = false` the log forwarder `log`, `EmitEvent`,
`ReportStatus` and `sendHeartbeat` return the client as it is, for every
argument; in particular the record of publish calls does not grow. -/
theorem telemetry_silent_when_stopped (c : Client) (rt : Runtime) (level : LogLevel)
    (message event : String) (data : GoMap) (h : c.running = false) :
    c.log rt level message = c ∧
    c.EmitEvent rt event data = c ∧
    c.ReportStatus rt data = c ∧
    c.sendHeartbeat rt = c ∧
    (c.log rt level message).nats.published = c.nats.published ∧
    (c.EmitEvent rt event data).nats.published = c.nats.published ∧
    (c.ReportStatus rt data).nats.published = c.nats.published ∧
    (c.sendHeartbeat rt).nats.published = c.nats.published := by
  have h1 : c.log rt level message = c := by
    unfold Client.log Client.isRunning
    simp [h]
  have h2 : c.EmitEvent rt event data = c := by
    unfold Client.EmitEvent Client.isRunning
    simp [h]
  have h3 : c.ReportStatus rt data = c := by
    unfold Client.ReportStatus Client.isRunning
    simp [h]
  have h4 : c.sendHeartbeat rt = c := by
    unfold Client.sendHeartbeat Client.isRunning
    simp [h]
  exact ⟨h1, h2, h3, h4, by rw [h1], by rw [h2], by rw [h3], by rw [h4]⟩

/-- Witness of C10: the sample client after `Close`, in a world where the
connection would accept every message. -/
theorem telemetry_silent_when_stopped_witness :
    exampleClient.Close.1.running = false ∧
    (exampleClient.Close.1.log exampleRuntime "Error" "disk failure").nats.published = [] ∧
    (exampleClient.Close.1.EmitEvent exampleRuntime "door.open" []).nats.published = [] ∧
    (exampleClient.Close.1.ReportStatus exampleRuntime [("ready", .bool true)]).nats.published
      = [] ∧
    (exampleClient.Close.1.sendHeartbeat exampleRuntime).nats.published = [] :=
  ⟨rfl,
    (telemetry_silent_when_stopped exampleClient.Close.1 exampleRuntime "Error" "disk failure"
      "door.open" [] rfl).2.2.2.2.1,
    (telemetry_silent_when_stopped exampleClient.Close.1 exampleRuntime "Error" "disk failure"
      "door.open" [] rfl).2.2.2.2.2.1,
    (telemetry_silent_when_stopped exampleClient.Close.1 exampleRuntime "Error" "disk failure"
      "door.open" [("ready", .bool true)] rfl).2.2.2.2.2.2.1,
    (telemetry_silent_when_stopped exampleClient.Close.1 exampleRuntime "Error" "disk failure"
      "door.open" [] rfl).2.2.2.2.2.2.2⟩

/-! ## Heartbeat metrics -/

theorem mapGet_mapSet (m : GoMap) (k : String) (v : Value) (k' : String) :
    mapGet (mapSet m k v) k' = if k = k' then some v else mapGet m k' := by
  induction m with
  | nil => simp [mapSet, mapGet]
  | cons x rest ih =>
    obtain ⟨k0, v0⟩ := x
    by_cases h0 : k0 = k
    · subst h0
      by_cases h1 : k0 = k' <;> simp [mapSet, mapGet, h1]
    · by_cases h1 : k0 = k'
      · subst h1
        simp [mapSet, mapGet, h0, Ne.symm h0]
      · simp [mapSet, mapGet, h0, h1, ih]

theorem mem_keys_mapSet (m : GoMap) (k : String) (v : Value) (k' : String) :
    k' ∈ (mapSet m k v).map Prod.fst ↔ k' = k ∨ k' ∈ m.map Prod.fst := by
  induction m with
  | nil => simp [mapSet]
  | cons x rest ih =>
    obtain ⟨k0, v0⟩ := x
    by_cases h0 : k0 = k
    · subst h0
      simp [mapSet]
    · simp only [mapSet, h0, if_false, List.map_cons, List.mem_cons, ih]
      tauto

theorem nodup_keys_mapSet (m : GoMap) (k : String) (v : Value)
    (h : (m.map Prod.fst).Nodup) : ((mapSet m k v).map Prod.fst).Nodup := by
  induction m with
  | nil => simp [mapSet]
  | cons x rest ih =>
    obtain ⟨k0, v0⟩ := x
    simp only [List.map_cons, List.nodup_cons] at h
    by_cases h0 : k0 = k
    · subst h0
      simp only [mapSet, if_true, List.map_cons, List.nodup_cons]
      exact h
    · simp only [mapSet, h0, if_false, List.map_cons, List.nodup_cons]
      refine ⟨?_, ih h.2⟩
      rw [mem_keys_mapSet]
      rintro (hk | hk)
      · exact h0 hk
      · exact h.1 hk

/-- The merge loop reads like the callback map where it has the key, and like the
default metrics elsewhere. -/
theorem mapGet_mergeMetrics (metrics customData : GoMap) (k : String) :
    mapGet (Client.mergeMetrics metrics customData) k =
      match mapGet customData k with
      | some v => some v
      | none => mapGet metrics k := by
  induction customData with
  | nil => simp [Client.mergeMetrics, mapGet]
  | cons x rest ih =>
    obtain ⟨k0, v0⟩ := x
    have hstep : Client.mergeMetrics metrics ((k0, v0) :: rest) =
        mapSet (Client.mergeMetrics metrics rest) k0 v0 := rfl
    rw [hstep, mapGet_mapSet]
    by_cases h0 : k0 = k
    · simp [mapGet, h0]
    · simp only [h0, if_false, mapGet]
      exact ih

theorem nodup_keys_mergeMetrics (metrics customData : GoMap)
    (h : (metrics.map Prod.fst).Nodup) :
    ((Client.mergeMetrics metrics customData).map Prod.fst).Nodup := by
  induction customData with
  | nil => exact h
  | cons x rest ih => exact nodup_keys_mapSet _ _ _ ih

/-- The publish record after a heartbeat on a running, connected client, with
`metrics` the merged map: one heartbeat record when `metrics` encodes as JSON,
nothing otherwise. -/
theorem sendHeartbeat_published (c : Client) (rt : Runtime) (metrics : GoMap)
    (hr : c.running = true) (hc : rt.isConnected = true)
    (hm : metrics =
      match c.heartbeatCallback with
      | some cb => Client.mergeMetrics [("uptime", .num rt.uptime)] (cb ())
      | none => [("uptime", .num rt.uptime)]) :
    ∃ accepted : Bool,
      (c.sendHeartbeat rt).nats.published =
        c.nats.published ++
          (if marshalErrFields metrics = none then
            [⟨c.topics.Heartbeat,
              .heartbeat { AppKey := c.opts.AppKey, Version := c.opts.AppVersion,
                           Status := "running", Metrics := metrics, Timestamp := rt.now },
              accepted⟩]
          else []) := by
  unfold Client.sendHeartbeat Client.isRunning NATSClient.IsConnected NATSClient.Publish
    Client.GetUptime
  simp only [hr, hc, Bool.not_true, Bool.or_self, Bool.false_eq_true, if_false, Payload.marshalErr]
  rw [← hm]
  rcases hme : marshalErrFields metrics with _ | e
  · dsimp only
    rcases rt.connPublish c.topics.Heartbeat
        (.heartbeat { AppKey := c.opts.AppKey, Version := c.opts.AppVersion,
                      Status := "running", Metrics := metrics, Timestamp := rt.now }) with _ | e
    · exact ⟨true, by simp⟩
    · exact ⟨false, by simp⟩
  · exact ⟨true, by simp⟩

/-- C12: a heartbeat on a running, connected client with uptime `rt.uptime`
publishes a record whose metrics map is the default `uptime` entry overridden by
the callback map key by key: a key of the callback map reads as in that map
(also the key `uptime`), `uptime` reads the uptime when the callback map has no
such key, every other key is absent, and keys are not repeated; with no callback
the metrics are exactly the `uptime` entry. The key `uptime` is always present.
The record is handed to the connection whenever the metrics encode as JSON. -/
theorem sendHeartbeat_metrics (c : Client) (rt : Runtime)
    (hr : c.running = true) (hc : rt.isConnected = true) :
    ∃ (metrics : GoMap) (accepted : Bool),
      (c.sendHeartbeat rt).nats.published =
        c.nats.published ++
          (if marshalErrFields metrics = none then
            [⟨c.topics.Heartbeat,
              .heartbeat { AppKey := c.opts.AppKey, Version := c.opts.AppVersion,
                           Status := "running", Metrics := metrics, Timestamp := rt.now },
              accepted⟩]
          else []) ∧
      (∀ cb, c.heartbeatCallback = some cb →
        (∀ k v, mapGet (cb ()) k = some v → mapGet metrics k = some v) ∧
        (mapGet (cb ()) "uptime" = none → mapGet metrics "uptime" = some (.num rt.uptime)) ∧
        (∀ k, mapGet (cb ()) k = none → k ≠ "uptime" → mapGet metrics k = none)) ∧
      (c.heartbeatCallback = none → metrics = [("uptime", .num rt.uptime)]) ∧
      (mapGet metrics "uptime").isSome = true ∧
      (metrics.map Prod.fst).Nodup := by
  obtain ⟨accepted, hp⟩ := sendHeartbeat_published c rt _ hr hc rfl
  refine ⟨_, accepted, hp, ?_, ?_, ?_, ?_⟩
  · intro cb hcb
    simp only [hcb]
    refine ⟨?_, ?_, ?_⟩
    · intro k v hk
      rw [mapGet_mergeMetrics, hk]
    · intro hk
      rw [mapGet_mergeMetrics, hk]
      simp [mapGet]
    · intro k hk hne
      rw [mapGet_mergeMetrics, hk]
      simp [mapGet, Ne.symm hne]
  · intro hnone
    simp only [hnone]
  · rcases hcb : c.heartbeatCallback with _ | cb
    · simp [mapGet]
    · simp only
      rw [mapGet_mergeMetrics]
      rcases mapGet (cb ()) "uptime" with _ | v <;> simp [mapGet]
  · rcases hcb : c.heartbeatCallback with _ | cb
    · simp
    · exact nodup_keys_mergeMetrics _ _ (by simp)

/-- Witness of C12: the callback of the specification scenario returns one metric
`custom`; a second callback returns its own `uptime`, which wins. -/
theorem sendHeartbeat_metrics_witness :
    (exampleClient.SetHeartbeatCallback (some customCallback)).running = true ∧
    exampleRuntime.isConnected = true ∧
    (((exampleClient.SetHeartbeatCallback (some customCallback)).sendHeartbeat
        exampleRuntime).nats.published.map
      (fun p => match p.data with
        | .heartbeat h =>
          (p.subject, h.Metrics.map Prod.fst, mapGet h.Metrics "uptime" matches some (.num 42),
            mapGet h.Metrics "custom" matches some (.num 1))
        | _ => ("", [], false, false))) = [("app.camera.heartbeat", ["uptime", "custom"], true, true)] ∧
    (((exampleClient.SetHeartbeatCallback (some overridingCallback)).sendHeartbeat
        exampleRuntime).nats.published.map
      (fun p => match p.data with
        | .heartbeat h =>
          (p.subject, h.Metrics.map Prod.fst, mapGet h.Metrics "uptime" matches some (.str "n/a"),
            mapGet h.Metrics "custom" matches some (.num 1))
        | _ => ("", [], false, false))) = [("app.camera.heartbeat", ["uptime", "custom"], true, true)] ∧
    ∃ (metrics : GoMap) (accepted : Bool),
      ((exampleClient.SetHeartbeatCallback (some customCallback)).sendHeartbeat
          exampleRuntime).nats.published =
        (exampleClient.SetHeartbeatCallback (some customCallback)).nats.published ++
          (if marshalErrFields metrics = none then
            [⟨(exampleClient.SetHeartbeatCallback (some customCallback)).topics.Heartbeat,
              .heartbeat
                { AppKey := (exampleClient.SetHeartbeatCallback (some customCallback)).opts.AppKey,
                  Version := (exampleClient.SetHeartbeatCallback (some customCallback)).opts.AppVersion,
                  Status := "running", Metrics := metrics, Timestamp := exampleRuntime.now },
              accepted⟩]
          else []) ∧
      (∀ cb, (exampleClient.SetHeartbeatCallback (some customCallback)).heartbeatCallback = some cb →
        (∀ k v, mapGet (cb ()) k = some v → mapGet metrics k = some v) ∧
        (mapGet (cb ()) "uptime" = none →
          mapGet metrics "uptime" = some (.num exampleRuntime.uptime)) ∧
        (∀ k, mapGet (cb ()) k = none → k ≠ "uptime" → mapGet metrics k = none)) ∧
      ((exampleClient.SetHeartbeatCallback (some customCallback)).heartbeatCallback = none →
        metrics = [("uptime", .num exampleRuntime.uptime)]) ∧
      (mapGet metrics "uptime").isSome = true ∧
      (metrics.map Prod.fst).Nodup :=
  ⟨rfl, rfl, by decide, by decide,
    sendHeartbeat_metrics (exampleClient.SetHeartbeatCallback (some customCallback))
      exampleRuntime rfl rfl⟩

/-! ## Severity methods -/

theorem Logger_Log_entries (l : Logger) (level : LogrusLevel) (message : String) :
    (∃ rest, (l.Log level message).entries = l.entries ++ rest) ∧
    (l.level.toNat ≥ level.toNat → (l.Log level message).entries = l.entries ++ [(level, message)]) ∧
    (¬ l.level.toNat ≥ level.toNat → (l.Log level message).entries = l.entries) := by
  unfold Logger.Log
  by_cases h : l.level.toNat ≥ level.toNat
  · rw [if_pos h]
    exact ⟨⟨_, rfl⟩, fun _ => rfl, fun hn => absurd h hn⟩
  · rw [if_neg h]
    exact ⟨⟨[], by simp⟩, fun hp => absurd hp h, fun _ => rfl⟩

/-- The forwarder only appends to the entries of the local logger. -/
theorem log_logger_entries (c : Client) (rt : Runtime) (level : LogLevel) (message : String) :
    ∃ rest, (c.log rt level message).logger.entries = c.logger.entries ++ rest := by
  unfold Client.log NATSClient.Publish
  simp only [Payload.marshalErr]
  split
  · exact ⟨[], by simp⟩
  · split
    · exact ⟨[], by simp⟩
    · cases hp : rt.connPublish c.topics.Logs
          (.log { Level := level, Message := message, Timestamp := rt.now }) with
      | none => exact ⟨[], by simp⟩
      | some err =>
        exact (Logger_Log_entries c.logger .ErrorLevel ("Failed to publish log to NATS: " ++ err)).1

theorem shouldReportLog_of_ordinal (name minLevel : String) (y x : Nat)
    (hy : levelOrdinal name = some y) (hx : levelOrdinal minLevel = some x) (h : x ≤ y) :
    shouldReportLog name minLevel = true := by
  unfold shouldReportLog
  rw [levelsGet_levels, levelsGet_levels, hy, hx]
  simpa using h

/-- The common shape of the five severity methods that return: the entry goes to
the local logger, then the forwarder runs. On a running client whose minimum
level is recognised and not above the severity, one log record is published, and
the entry is recorded when the level of the local logger enables it. -/
theorem log_method_spec (c : Client) (rt : Runtime) (level : LogrusLevel) (name : LogLevel)
    (message : String) (x y : Nat) (hr : c.running = true)
    (hx : levelOrdinal c.minLogLevel = some x) (hy : levelOrdinal name = some y) (hxy : x ≤ y) :
    ForwardedOnce c (({ c with logger := c.logger.Log level message }).log rt name message)
      rt name message ∧
    (c.logger.level.toNat ≥ level.toNat →
      RecordedLocally c (({ c with logger := c.logger.Log level message }).log rt name message)
        level message) := by
  have hgate := shouldReportLog_of_ordinal name c.minLogLevel y x hy hx hxy
  constructor
  · rcases log_cases { c with logger := c.logger.Log level message } rt name message with
      ⟨_, hf | hf⟩ | ⟨_, _, accepted, lg, h⟩
    · rw [hr] at hf; cases hf
    · rw [hgate] at hf; cases hf
    · exact ⟨accepted, by rw [h]⟩
  · intro hen
    obtain ⟨rest, hrest⟩ :=
      log_logger_entries { c with logger := c.logger.Log level message } rt name message
    refine ⟨rest, ?_⟩
    rw [hrest]
    simp only [(Logger_Log_entries c.logger level message).2.1 hen, List.append_assoc,
      List.singleton_append]

/-- C11, the claim as stated fails on the code. On the running sample client, whose
minimum level `Info` is not above `Fatal` or `Panic`, `LogFatal` ends in
`os.Exit(1)` and `LogPanic` in a panic, both before the forwarder is reached, so
no log record is published. On the running client `verboseClient`, whose minimum
level is `Trace` while its logger has the level `Info`, `LogTrace` publishes the
record but writes nothing to the local logger. -/
theorem log_methods_counterexample :
    exampleClient.running = true ∧ levelOrdinal exampleClient.minLogLevel = some 2 ∧
    (∃ c', exampleClient.LogFatal exampleRuntime "disk failure" = Outcome.exited c' 1) ∧
    ¬ ForwardedOnce exampleClient (exampleClient.LogFatal exampleRuntime "disk failure").client
        exampleRuntime "Fatal" "disk failure" ∧
    (∃ c', exampleClient.LogPanic exampleRuntime "disk failure" =
      Outcome.panicked c' "disk failure") ∧
    ¬ ForwardedOnce exampleClient (exampleClient.LogPanic exampleRuntime "disk failure").client
        exampleRuntime "Panic" "disk failure" ∧
    verboseClient.running = true ∧ levelOrdinal verboseClient.minLogLevel = some 0 ∧
    ForwardedOnce verboseClient (verboseClient.LogTrace exampleRuntime "tick") exampleRuntime
      "Trace" "tick" ∧
    (verboseClient.LogTrace exampleRuntime "tick").logger.entries = [] ∧
    ¬ RecordedLocally verboseClient (verboseClient.LogTrace exampleRuntime "tick")
        .TraceLevel "tick" := by
  have hnone : ∀ (name : LogLevel) (c' : Client), c'.nats.published = [] →
      ¬ ForwardedOnce exampleClient c' exampleRuntime name "disk failure" := by
    intro name c' hc' hf
    obtain ⟨accepted, h⟩ := hf
    rw [hc'] at h
    have hlen := congrArg List.length h
    simp at hlen
  have hentries : (verboseClient.LogTrace exampleRuntime "tick").logger.entries = [] := by decide
  refine ⟨rfl, by decide, ⟨_, rfl⟩, hnone _ _ rfl, ⟨_, rfl⟩, hnone _ _ rfl, rfl, by decide,
    ⟨true, rfl⟩, hentries, ?_⟩
  rintro ⟨rest, h⟩
  rw [hentries] at h
  simp at h

/-- C11 as amended: on a running client whose minimum level is a recognised level
of ordinal `x`, each of `LogTrace`, `LogDebug`, `LogInfo`, `LogWarn` and
`LogError` whose severity is not below `x` publishes exactly one log record with
the name of that severity and the message on the logs subject, and records the
message to the local logger when the level of that logger enables the severity;
`LogFatal` and `LogPanic` record the message to the local logger when its level
enables the severity, which for `Panic` is always. -/
theorem log_methods_record_and_forward (c : Client) (rt : Runtime) (message : String) (x : Nat)
    (hr : c.running = true) (hmin : levelOrdinal c.minLogLevel = some x) :
    (x ≤ 0 →
      ForwardedOnce c (c.LogTrace rt message) rt "Trace" message ∧
      (c.logger.level.toNat ≥ LogrusLevel.TraceLevel.toNat →
        RecordedLocally c (c.LogTrace rt message) .TraceLevel message)) ∧
    (x ≤ 1 →
      ForwardedOnce c (c.LogDebug rt message) rt "Debug" message ∧
      (c.logger.level.toNat ≥ LogrusLevel.DebugLevel.toNat →
        RecordedLocally c (c.LogDebug rt message) .DebugLevel message)) ∧
    (x ≤ 2 →
      ForwardedOnce c (c.LogInfo rt message) rt "Info" message ∧
      (c.logger.level.toNat ≥ LogrusLevel.InfoLevel.toNat →
        RecordedLocally c (c.LogInfo rt message) .InfoLevel message)) ∧
    (x ≤ 3 →
      ForwardedOnce c (c.LogWarn rt message) rt "Warn" message ∧
      (c.logger.level.toNat ≥ LogrusLevel.WarnLevel.toNat →
        RecordedLocally c (c.LogWarn rt message) .WarnLevel message)) ∧
    (x ≤ 4 →
      ForwardedOnce c (c.LogError rt message) rt "Error" message ∧
      (c.logger.level.toNat ≥ LogrusLevel.ErrorLevel.toNat →
        RecordedLocally c (c.LogError rt message) .ErrorLevel message)) ∧
    (x ≤ 5 →
      (c.logger.level.toNat ≥ LogrusLevel.FatalLevel.toNat →
        RecordedLocally c (c.LogFatal rt message).client .FatalLevel message)) ∧
    (x ≤ 6 → RecordedLocally c (c.LogPanic rt message).client .PanicLevel message) := by
  refine ⟨fun h => ?_, fun h => ?_, fun h => ?_, fun h => ?_, fun h => ?_, fun _ hen => ?_,
    fun _ => ?_⟩
  · exact log_method_spec c rt .TraceLevel "Trace" message x 0 hr hmin (by decide) h
  · exact log_method_spec c rt .DebugLevel "Debug" message x 1 hr hmin (by decide) h
  · exact log_method_spec c rt .InfoLevel "Info" message x 2 hr hmin (by decide) h
  · exact log_method_spec c rt .WarnLevel "Warn" message x 3 hr hmin (by decide) h
  · exact log_method_spec c rt .ErrorLevel "Error" message x 4 hr hmin (by decide) h
  · refine ⟨[], ?_⟩
    exact (Logger_Log_entries c.logger .FatalLevel message).2.1 hen
  · refine ⟨[], ?_⟩
    exact (Logger_Log_entries c.logger .PanicLevel message).2.1 (Nat.zero_le _)

/-- Witness of C11 as amended: `LogError` on the sample client, whose minimum
level and logger level are both `Info`. -/
theorem log_methods_record_and_forward_witness :
    exampleClient.running = true ∧
    levelOrdinal exampleClient.minLogLevel = some 2 ∧
    exampleClient.logger.level.toNat ≥ LogrusLevel.ErrorLevel.toNat ∧
    ForwardedOnce exampleClient (exampleClient.LogError exampleRuntime "disk failure")
      exampleRuntime "Error" "disk failure" ∧
    RecordedLocally exampleClient (exampleClient.LogError exampleRuntime "disk failure")
      .ErrorLevel "disk failure" ∧
    (exampleClient.LogError exampleRuntime "disk failure").logger.entries =
      [(LogrusLevel.ErrorLevel, "disk failure")] ∧
    ((exampleClient.LogError exampleRuntime "disk failure").nats.published.map
      (fun p => match p.data with
        | .log d => (p.subject, d.Level, d.Message, d.Timestamp)
        | _ => ("", "", "", 0))) =
      [("app.camera.logs", "Error", "disk failure", 1700000000)] :=
  ⟨rfl, by decide, by decide,
    ((log_methods_record_and_forward exampleClient exampleRuntime "disk failure" 2 rfl
      (by decide)).2.2.2.2.1 (by decide)).1,
    ((log_methods_record_and_forward exampleClient exampleRuntime "disk failure" 2 rfl
      (by decide)).2.2.2.2.1 (by decide)).2 (by decide),
    by decide, by decide⟩

end EdgeSDK
